import Mathlib

/-!
Verification development for the mcp-outlet JSON-RPC gateway
(Python implementation under src/python/app).

The development shallowly embeds the parts of the code the claims are
about:
* a JSON value type standing for the Python dict/list/str/int/bool/None
  values that flow through the handlers,
* the error taxonomy and `format_error` (app/helpers/error.py),
* the pydantic schema validation used for `params._meta`
  (app/helpers/schema.py),
* the span recorder `Tracer` (app/helpers/tracer.py),
* the argument parsing and entry-point resolution of
  `parse_mcp_server_params` (app/helpers/uv_handler.py),
* the worker bridge `McpCaller` / `SimpleThreadedMcpServer`
  (app/helpers/mcp_caller.py), with the worker process abstracted as a
  script of wire replies consumed by successive `send_request` calls,
* the dispatcher `rpc_handler` (app/handlers/rpc.py).

Machine clocks are modelled as explicitly threaded integer timestamps
(milliseconds); the Python floats carry no other structure here.
-/

/-! ## JSON values

Python values reaching the handlers are JSON-shaped: `None`, booleans,
numbers, strings, lists and string-keyed dicts.  The type is a mutual
inductive (rather than nesting `List`) so that all functions on it are
structurally recursive and reduce definitionally. Numbers are modelled
as integers: no claim depends on fractional values. -/

mutual

inductive Json where
  | null
  | bool (b : Bool)
  | num (n : Int)
  | str (s : String)
  | arr (xs : JsonArr)
  | obj (fields : JsonObj)
  deriving DecidableEq

inductive JsonArr where
  | nil
  | cons (hd : Json) (tl : JsonArr)
  deriving DecidableEq

inductive JsonObj where
  | nil
  | cons (key : String) (val : Json) (tl : JsonObj)
  deriving DecidableEq

end

/-- Build a `JsonArr` from a list. -/
def jarr : List Json → JsonArr
  | [] => .nil
  | x :: xs => .cons x (jarr xs)

/-- Build a `JsonObj` from an association list. -/
def jobj : List (String × Json) → JsonObj
  | [] => .nil
  | (k, v) :: fs => .cons k v (jobj fs)

/-- First value bound to `k`, like Python `d.get(k)` (dicts never hold
duplicate keys, so first = only). -/
def JsonObj.lookup : JsonObj → String → Option Json
  | .nil, _ => none
  | .cons k v tl, key => if k = key then some v else tl.lookup key

/-- Python `k in d`. -/
def JsonObj.hasKey (fs : JsonObj) (k : String) : Bool :=
  (fs.lookup k).isSome

/-- Append a field at the end. -/
def JsonObj.push : JsonObj → String → Json → JsonObj
  | .nil, k, v => .cons k v .nil
  | .cons k' v' tl, k, v => .cons k' v' (tl.push k v)

/-- Keys of the object, in order. -/
def JsonObj.keys : JsonObj → List String
  | .nil => []
  | .cons k _ tl => k :: tl.keys

/-- Concatenation of objects. -/
def JsonObj.append : JsonObj → JsonObj → JsonObj
  | .nil, b => b
  | .cons k v tl, b => .cons k v (append tl b)

/-- `a` with values overridden by `b` where the key is present in `b`. -/
def JsonObj.updKeep : JsonObj → JsonObj → JsonObj
  | .nil, _ => .nil
  | .cons k v tl, b => .cons k ((b.lookup k).getD v) (updKeep tl b)

/-- Entries of `b` whose key is not in `ks`. -/
def JsonObj.dropKeys : JsonObj → List String → JsonObj
  | .nil, _ => .nil
  | .cons k v tl, ks => if k ∈ ks then dropKeys tl ks else .cons k v (dropKeys tl ks)

/-- Python `dict.update` / `{**a, **b}` semantics: existing keys keep
their position and take `b`'s value; keys only in `b` are appended in
`b`'s order. -/
def JsonObj.update (a b : JsonObj) : JsonObj :=
  (a.updKeep b).append (b.dropKeys a.keys)

/-- Python truthiness of the modelled values (`bool(x)`). -/
def Json.truthy : Json → Bool
  | .null => false
  | .bool b => b
  | .num n => n != 0
  | .str s => s != ""
  | .arr .nil => false
  | .arr (.cons _ _) => true
  | .obj .nil => false
  | .obj (.cons _ _ _) => true

/-- Truthiness of a `d.get(k)` result (`None` when the key is absent). -/
def truthyOpt : Option Json → Bool
  | none => false
  | some v => v.truthy

/-- `j.get k` for objects, `none` otherwise (callers establish the
object shape before using it, mirroring the Python attribute access). -/
def Json.get : Json → String → Option Json
  | .obj fs, k => fs.lookup k
  | _, _ => none

/-- `k in j` for objects. -/
def Json.hasKey : Json → String → Bool
  | .obj fs, k => fs.hasKey k
  | _, _ => false

/-- A single ASCII apostrophe, used by the Python `repr` of strings. -/
def pyQuote : String := (Char.ofNat 39).toString

mutual

/-- Python `str(x)` for the modelled values (used by f-string
interpolation).  Container reprs follow Python's `repr` conventions;
string escaping inside reprs is not modelled (no claim depends on it). -/
def pyStr : Json → String
  | .null => "None"
  | .bool true => "True"
  | .bool false => "False"
  | .num n => toString n
  | .str s => s
  | .arr xs => "[" ++ pyStrArr xs ++ "]"
  | .obj fs => "\x7b" ++ pyStrObj fs ++ "\x7d"

/-- Python `repr(x)`: like `pyStr` but strings are quoted. -/
def pyRepr : Json → String
  | .str s => pyQuote ++ s ++ pyQuote
  | .arr xs => "[" ++ pyStrArr xs ++ "]"
  | .obj fs => "\x7b" ++ pyStrObj fs ++ "\x7d"
  | v => pyStr v

/-- comma-separated reprs of array elements. -/
def pyStrArr : JsonArr → String
  | .nil => ""
  | .cons x .nil => pyRepr x
  | .cons x tl => pyRepr x ++ ", " ++ pyStrArr tl

/-- comma-separated `key: value` reprs of object entries. -/
def pyStrObj : JsonObj → String
  | .nil => ""
  | .cons k v .nil => pyQuote ++ k ++ pyQuote ++ ": " ++ pyRepr v
  | .cons k v tl => pyQuote ++ k ++ pyQuote ++ ": " ++ pyRepr v ++ ", " ++ pyStrObj tl

end

/-! ## String primitives

Python's `split`, `replace`, `startswith` and `", ".join`, implemented
by structural recursion over character lists so that every use reduces
definitionally (the core `String` versions are compiled by well-founded
recursion and do not). -/

/-- `listStartsWith cs ps`: `ps` is a prefix of `cs`. -/
def listStartsWith : List Char → List Char → Bool
  | _, [] => true
  | [], _ :: _ => false
  | c :: cs, p :: ps => c = p && listStartsWith cs ps

/-- Python `s.startswith(p)`. -/
def pyStartsWith (s p : String) : Bool := listStartsWith s.data p.data

/-- Fuel-driven splitter: splits `cs` at every occurrence of the
non-empty separator `sep`, left to right. -/
def splitFuel : Nat → List Char → List Char → List Char → List (List Char)
  | 0, rest, _, acc => [acc.reverse ++ rest]
  | _ + 1, [], _, acc => [acc.reverse]
  | n + 1, c :: cs, sep, acc =>
    if listStartsWith (c :: cs) sep then
      acc.reverse :: splitFuel n (cs.drop (sep.length - 1)) sep []
    else splitFuel n cs sep (c :: acc)

/-- Python `s.split(sep)` for a non-empty separator. -/
def pySplit (s sep : String) : List String :=
  match sep.data with
  | [] => [s]
  | _ :: _ => (splitFuel (s.data.length + 1) s.data sep.data []).map String.mk

/-- Python `sep.join(parts)`. -/
def joinStr (sep : String) : List String → String
  | [] => ""
  | [a] => a
  | a :: rest => a ++ sep ++ joinStr sep rest

/-- Python `s.replace(a, b)` for non-empty `a`
(`= b.join(s.split(a))`). -/
def pyReplace (s a b : String) : String := joinStr b (pySplit s a)

/-- Parse a non-empty run of decimal digits; `none` on empty input or
any non-digit character. -/
def digitsToNat : List Char → Option Nat
  | [] => none
  | cs => go cs 0
where
  /-- accumulate digits left to right. -/
  go : List Char → Nat → Option Nat
    | [], acc => some acc
    | c :: cs, acc =>
      if 48 ≤ c.toNat ∧ c.toNat ≤ 57 then go cs (acc * 10 + (c.toNat - 48))
      else none

/-- Parse a plain signed decimal integer numeral (optional `-`/`+`
sign, then digits) — the strings `int(...)` accepts without any
stripping. -/
def pyParseInt (s : String) : Option Int :=
  match s.data with
  | [] => none
  | c :: rest =>
    if c.toNat = 45 then (digitsToNat rest).map (fun n => -(n : Int))
    else if c.toNat = 43 then (digitsToNat rest).map (fun n => (n : Int))
    else (digitsToNat (c :: rest)).map (fun n => (n : Int))

/-! ## Error model (app/helpers/error.py)

`CustomErrorCode` constants, the `CustomError` carrier and
`format_error`.  Python exceptions reaching the dispatcher are modelled
by `PyExc`: either a `CustomError` or one of the builtin exception
classes the code can raise, each carrying its `str(e)` rendering. -/

/-- Error codes from `CustomErrorCode` (error.py). -/
def PARSE_ERROR : Int := -32700

/-- `CustomErrorCode.INVALID_REQUEST`. -/
def INVALID_REQUEST : Int := -32600

/-- `CustomErrorCode.METHOD_NOT_FOUND`. -/
def METHOD_NOT_FOUND : Int := -32601

/-- `CustomErrorCode.INVALID_PARAMS`. -/
def INVALID_PARAMS : Int := -32602

/-- `CustomErrorCode.INTERNAL_ERROR`. -/
def INTERNAL_ERROR : Int := -32603

/-- `CustomErrorCode.CONNECTION_CLOSED`. -/
def CONNECTION_CLOSED : Int := -32001

/-- `CustomErrorCode.REQUEST_TIMEOUT` — declared in error.py; note that
no code path of the repository ever raises it. -/
def REQUEST_TIMEOUT : Int := -32002

/-- The `CustomError` class: code, message and optional data dict. -/
structure CustomErr where
  code : Int
  message : String
  data : Option Json
  deriving DecidableEq

/-- Python exceptions that can cross the dispatcher boundary: a typed
`CustomError`, or a builtin exception carrying its `str(e)` text. -/
inductive PyExc where
  | custom (e : CustomErr)
  | timeoutExc (msg : String)
  | runtimeExc (msg : String)
  | attributeExc (msg : String)
  | typeExc (msg : String)
  | valueExc (msg : String)
  | keyExc (msg : String)
  deriving DecidableEq

instance {ε α : Type} [DecidableEq ε] [DecidableEq α] : DecidableEq (Except ε α) :=
  fun x y =>
    match x, y with
    | .ok a, .ok b =>
      if h : a = b then .isTrue (by rw [h]) else .isFalse (fun hh => h (by injection hh))
    | .error a, .error b =>
      if h : a = b then .isTrue (by rw [h]) else .isFalse (fun hh => h (by injection hh))
    | .ok _, .error _ => .isFalse (fun hh => Except.noConfusion hh)
    | .error _, .ok _ => .isFalse (fun hh => Except.noConfusion hh)

/-- `str(e)` of a modelled exception.  For `CustomError`,
`Exception.__init__` receives the message. -/
def strOfExc : PyExc → String
  | .custom e => e.message
  | .timeoutExc m => m
  | .runtimeExc m => m
  | .attributeExc m => m
  | .typeExc m => m
  | .valueExc m => m
  | .keyExc m => m

/-- `CustomError.to_response`: `data` is attached only when truthy. -/
def CustomErr.to_response (e : CustomErr) : Json :=
  match e.data with
  | some d => if d.truthy
      then .obj (jobj [("code", .num e.code), ("message", .str e.message), ("data", d)])
      else .obj (jobj [("code", .num e.code), ("message", .str e.message)])
  | none => .obj (jobj [("code", .num e.code), ("message", .str e.message)])

/-- Inputs of `format_error` (typed `Any` in the source): an exception
instance or a plain value. -/
inductive ErrValue where
  | exc (e : PyExc)
  | val (v : Json)
  deriving DecidableEq

/-- Pydantic v2 lax validation of an `int` field: integers pass
through, and a string holding a plain signed decimal numeral is
coerced to the integer it denotes (pydantic-core's lax
string-to-int); booleans and other values are rejected. -/
def pyLaxInt : Json → Option Int
  | .num n => some n
  | .str s => pyParseInt s
  | _ => none

/-- `CustomErrorResponse(**error)` validation (schema.py): `code : int`
(lax, so numeric strings coerce), `message : str`,
`data : Optional[Dict]` (absent or `None` become `None`); extra keys
are ignored by the default pydantic config.  Returns the validated
triple. -/
def validateCustomErrorResponse (fs : JsonObj) : Option (Int × String × Option Json) :=
  match fs.lookup "code", fs.lookup "message" with
  | some cv, some (.str m) =>
    match pyLaxInt cv with
    | some c =>
      match fs.lookup "data" with
      | none => some (c, m, none)
      | some .null => some (c, m, none)
      | some (.obj d) => some (c, m, some (.obj d))
      | some _ => none
    | none => none
  | _, _ => none

/-- `format_error` (error.py): `CustomError` passes through; a
`{code, message, data?}`-shaped dict is normalized with every occurrence
of `"MCP error {code}: "` removed from the message; any other
`Exception` becomes `INTERNAL_ERROR` with `str(e)` as the message; any
other value becomes `INTERNAL_ERROR` / `"Unknown error"` with the
value's string form under `data.error`. -/
def format_error : ErrValue → CustomErr
  | .exc (.custom e) => e
  | .exc e => ⟨INTERNAL_ERROR, strOfExc e, none⟩
  | .val v =>
    match v with
    | .obj fs =>
      if fs.hasKey "code" && fs.hasKey "message" then
        match validateCustomErrorResponse fs with
        | some (c, m, d) =>
            ⟨c, pyReplace m ("MCP error " ++ toString c ++ ": ") "", d⟩
        | none => formatUnknown (.obj fs)
      else formatUnknown (.obj fs)
    | w => formatUnknown w
where
  /-- the final fallback branch of `format_error`. -/
  formatUnknown (v : Json) : CustomErr :=
    ⟨INTERNAL_ERROR, "Unknown error",
      some (.obj (jobj [("error", if v = .null then .null else .str (pyStr v))]))⟩

/-! ## Schema validation (app/helpers/schema.py)

`McpServerConfiguration` and `CustomRequestMeta`, as pydantic validates
them in lax mode.  Lax mode does not coerce into `str`-typed fields,
and integral floats are outside the modelled value space; on the
modelled values the checks below are the pydantic ones. -/

/-- The validated `McpServerConfiguration`. -/
structure ServerConfig where
  protocolVersion : String
  jsonrpc : String
  type : String
  command : String
  args : Option (List String)
  cwd : Option String
  stderr : Option Json
  env : Option (List (String × String))
  version : Option String
  deriving DecidableEq

/-- Extract a list of strings from a JSON array (for `args`). -/
def strList : JsonArr → Option (List String)
  | .nil => some []
  | .cons (.str s) tl => (strList tl).map (s :: ·)
  | .cons _ _ => none

/-- Extract a string-to-string dict (for `env`). -/
def strDict : JsonObj → Option (List (String × String))
  | .nil => some []
  | .cons k (.str s) tl => (strDict tl).map ((k, s) :: ·)
  | .cons _ _ _ => none

/-- The keys pydantic consumes when validating `McpServerConfiguration`
against `fs`: every field is looked up by its alias first, and
`populate_by_name` lets the field name `protocol_version` stand in for
the alias `protocolVersion` only when the alias is absent — when both
spellings are present only the alias is consumed, and `extra="forbid"`
then rejects the other spelling as `extra_forbidden`. -/
def serverConfigKeys (fs : JsonObj) : List String :=
  (if (fs.lookup "protocolVersion").isSome then "protocolVersion"
   else "protocol_version")
    :: ["jsonrpc", "type", "command", "args", "cwd", "stderr", "env", "version"]

/-- `McpServerConfiguration(**server)`: `command : str` required;
`jsonrpc` and `type` are literals `"2.0"` / `"stdio"`; optional typed
fields; `extra="forbid"` rejects every key pydantic did not consume. -/
def validateServerConfig (fs : JsonObj) : Option ServerConfig :=
  if fs.keys.all (· ∈ serverConfigKeys fs) then
    match fs.lookup "command" with
    | some (.str cmd) =>
      let pv := match (fs.lookup "protocolVersion").orElse (fun _ => fs.lookup "protocol_version") with
        | none => some "2025-03-26"
        | some (.str s) => some s
        | some _ => none
      let jr := match fs.lookup "jsonrpc" with
        | none => some "2.0"
        | some (.str "2.0") => some "2.0"
        | some _ => none
      let ty := match fs.lookup "type" with
        | none => some "stdio"
        | some (.str "stdio") => some "stdio"
        | some _ => none
      let ar := match fs.lookup "args" with
        | none => some none
        | some .null => some none
        | some (.arr xs) => (strList xs).map some
        | some _ => none
      let cw := match fs.lookup "cwd" with
        | none => some none
        | some .null => some none
        | some (.str s) => some (some s)
        | some _ => none
      let se := match fs.lookup "stderr" with
        | none => some none
        | some .null => some none
        | some (.str s) => some (some (.str s))
        | some (.num n) => some (some (.num n))
        | some _ => none
      let ev := match fs.lookup "env" with
        | none => some none
        | some .null => some none
        | some (.obj gs) => (strDict gs).map some
        | some _ => none
      let ve := match fs.lookup "version" with
        | none => some none
        | some .null => some none
        | some (.str s) => some (some s)
        | some _ => none
      match pv, jr, ty, ar, cw, se, ev, ve with
      | some pv, some jr, some ty, some ar, some cw, some se, some ev, some ve =>
        some ⟨pv, jr, ty, cmd, ar, cw, se, ev, ve⟩
      | _, _, _, _, _, _, _, _ => none
    | _ => none
  else none

/-- `CustomRequestMeta(**meta)`: requires a validating `server` field;
extra keys are allowed. -/
def validateRequestMeta (fs : JsonObj) : Option ServerConfig :=
  match fs.lookup "server" with
  | some (.obj sfs) => validateServerConfig sfs
  | _ => none

/-- `meta.server.model_dump()` (`by_alias=True`, `None`s included), in
pydantic field order. -/
def dumpServerConfig (c : ServerConfig) : Json :=
  .obj (jobj
    [("protocolVersion", .str c.protocolVersion),
     ("jsonrpc", .str c.jsonrpc),
     ("type", .str c.type),
     ("command", .str c.command),
     ("args", match c.args with
       | none => .null
       | some xs => .arr (jarr (xs.map .str))),
     ("cwd", match c.cwd with | none => .null | some s => .str s),
     ("stderr", match c.stderr with | none => .null | some v => v),
     ("env", match c.env with
       | none => .null
       | some kvs => .obj (jobj (kvs.map (fun kv => (kv.1, .str kv.2))))),
     ("version", match c.version with | none => .null | some s => .str s)])

/-! ## Tracer (app/helpers/tracer.py)

Spans and the tracer state.  `time.time() * 1000` timestamps are
explicit integer arguments (`now`); `datetime` values are carried as
the same integers and rendered with `toString` where the source calls
`isoformat()` (no claim inspects the rendering). -/

/-- A `TraceSpan` (schema.py).  `dur` models the `duration` field. -/
structure Span where
  seq : String
  parentSeq : Option String
  startTime : Int
  dur : Option Int
  status : String
  error : Option String
  data : Option Json
  isValid : Bool
  deriving DecidableEq

/-- The mutable state of a `Tracer` instance. -/
structure TracerState where
  spans : List Span
  traceId : String
  startTime : Int
  endTime : Option Int
  currentParent : Option String
  traceAdditionalData : Option Json
  deriving DecidableEq

/-- `Tracer.__init__`. -/
def mkTracer (traceId : String) (parent : Option String)
    (additionalData : Option Json) (now : Int) : TracerState :=
  ⟨[], traceId, now, none, parent, additionalData⟩

/-- Python `a or b` on optional strings (empty string is falsy). -/
def pyOrStr : Option String → Option String → Option String
  | some s, b => if s = "" then b else some s
  | none, b => b

/-- Python `a or b` where `a` came from a `d.get` and `b` is a value. -/
def jsonOr : Option Json → Json → Json
  | some v, b => if v.truthy then v else b
  | none, b => b

/-- `Tracer._end_previous_span`: stamp duration and final status. -/
def end_previous_span (s : Span) (isError : Bool) (now : Int) : Span :=
  { s with dur := some (now - s.startTime),
           status := if isError then "error" else "success" }

/-- `if self.spans and self.spans[-1].status == "running":
self._end_previous_span(self.spans[-1], False)` — the last span, and
only the last, is ended in place when it is still running. -/
def closeLast : List Span → Int → List Span
  | [], _ => []
  | [s], now => if s.status = "running" then [end_previous_span s false now] else [s]
  | s :: tl, now => s :: closeLast tl now

/-- `Tracer.record_span`: if the last span is still `"running"` it is
ended with `is_error=False`, then a fresh `"running"` span is appended,
its parent defaulting to the tracer's ambient parent. -/
def record_span (t : TracerState) (name : String) (parentSeq : Option String)
    (additionalData : Option Json) (now : Int) : TracerState × Span :=
  let span : Span :=
    ⟨name, pyOrStr parentSeq t.currentParent, now, none, "running", none,
     additionalData, true⟩
  ({ t with spans := closeLast t.spans now ++ [span] }, span)

/-- The `TraceSpan(...)` construction of `_merge_spans_array`: builds
the merged span (always `is_valid=False`) when every field validated,
`none` otherwise. -/
def mergeSpanFields (seqStr : String) (parentVal : Json) (startVal : Option Int)
    (durVal : Option (Option Int)) (statusVal : Option String)
    (errVal : Option (Option String)) (dataVal : Option JsonObj) : Option Span :=
  match parentVal, startVal, durVal, statusVal, errVal, dataVal with
  | .str p, some st, some du, some sv, some er, some da =>
      some ⟨seqStr, some p, st, du, sv, er, some (.obj da), false⟩
  | _, _, _, _, _, _ => none

/-- One merged span of `Tracer._merge_spans_array`: builds the
`TraceSpan` from one child span dict, `none` when pydantic validation
fails (the source then skips the entry). -/
def mergeOneSpan (fs : JsonObj) (baseSeq parentSeq status : String)
    (adFields : JsonObj) (now : Int) : Option Span :=
  let seqStr := baseSeq ++ "." ++ pyStr ((fs.lookup "seq").getD (.str "unknown_span"))
  let parentVal := jsonOr (fs.lookup "parent_seq") (.str parentSeq)
  let startVal := match fs.lookup "start_time" with
    | none => some now
    | some (.num n) => some n
    | some _ => none
  let durVal := match fs.lookup "duration" with
    | none => some none
    | some .null => some none
    | some (.num n) => some (some n)
    | some _ => none
  let statusVal := match jsonOr (fs.lookup "status") (.str status) with
    | .str s => if s = "running" || s = "success" || s = "error" then some s else none
    | _ => none
  let errVal := match fs.lookup "error" with
    | none => some none
    | some .null => some none
    | some (.str s) => some (some s)
    | some _ => none
  let dataVal := match fs.lookup "data" with
    | none => some adFields
    | some v => if v.truthy
        then match v with
          | .obj gs => some (adFields.update gs)
          | _ => none
        else some adFields
  mergeSpanFields seqStr parentVal startVal durVal statusVal errVal dataVal

/-- `Tracer._merge_spans_array`: each child entry that is a dict and
validates becomes a merged span; everything else is skipped. -/
def mergeSpansArr (xs : JsonArr) (baseSeq parentSeq status : String)
    (adFields : JsonObj) (now : Int) : List Span :=
  match xs with
  | .nil => []
  | .cons (.obj fs) tl =>
    (match mergeOneSpan fs baseSeq parentSeq status adFields now with
     | some s => [s]
     | none => [])
    ++ mergeSpansArr tl baseSeq parentSeq status adFields now
  | .cons _ tl => mergeSpansArr tl baseSeq parentSeq status adFields now

/-- `Tracer._create_fallback_span`. -/
def create_fallback_span (childTrace : Json) (baseSeq parentSeq status : String)
    (adFields : JsonObj) (now : Int) : Span :=
  let tid := match childTrace with
    | .obj fs => pyStr (jsonOr (fs.lookup "trace_id") (jsonOr (fs.lookup "seq") (.str "unknown_span")))
    | _ => "unknown_span"
  ⟨baseSeq ++ "." ++ tid, some parentSeq, now, some 0, status, none,
   some (.obj (adFields.update (jobj [("child_trace", childTrace)]))), false⟩

/-- `Tracer._create_error_span` (the outer `except` of
`merge_child_trace`). -/
def create_error_span (childTrace : Json) (baseSeq parentSeq status : String)
    (adFields : JsonObj) (errMsg : String) (now : Int) : Span :=
  let tid := match childTrace with
    | .obj fs => pyStr (jsonOr (fs.lookup "seq") (jsonOr (fs.lookup "trace_id") (.str "parse_error")))
    | _ => "parse_error"
  ⟨baseSeq ++ "." ++ tid, some parentSeq, now, some 0, status, some errMsg,
   some (.obj (adFields.update (jobj [("child_trace", childTrace)]))), false⟩

/-- Concatenation of JSON arrays (`list.append` after copy). -/
def JsonArr.append : JsonArr → JsonArr → JsonArr
  | .nil, b => b
  | .cons x tl, b => .cons x (append tl b)

/-- `Tracer._merge_trace_data`: merges `additional_data` into the
tracer's data, then appends the child trace's `data` to its
`child_traces` list.  Returns the updated data and whether the append
raised (`child_traces` present but not a list): the dict update has
already been applied when that `AttributeError` is raised. -/
def mergeTraceData (tad : Option Json) (adFields : JsonObj) (tdata : Json) :
    Option Json × Bool :=
  let base : JsonObj := match tad with
    | some (.obj fs) => fs
    | _ => .nil
  let updated := base.update adFields
  match updated.lookup "child_traces" with
  | some (.arr xs) =>
      (some (.obj (updated.update (jobj [("child_traces", .arr (xs.append (jarr [tdata])))]))), false)
  | none =>
      (some (.obj (updated.update (jobj [("child_traces", .arr (jarr [tdata]))]))), false)
  | some _ => (some (.obj updated), true)

/-- `Tracer.merge_child_trace`.  Control flow of the source: a dict with
a `spans` list merges the spans and then merges trace data — if that
raises, the inner `except` swallows it and control falls through to the
fallback span; a dict without `spans` or a non-dict non-list value
degrade to a single fallback span; a list is merged directly.
`additional_data` defaults to `{}` (callers pass dicts or `None`). -/
def merge_child_trace (t : TracerState) (baseSeq parentSeq : String)
    (isSuccess : Bool) (childTrace : Json) (additionalData : Option Json)
    (now : Int) : TracerState :=
  let status := if isSuccess then "success" else "error"
  let adFields : JsonObj := match additionalData with
    | some (.obj fs) => fs
    | _ => .nil
  match childTrace with
  | .obj fs =>
    match fs.lookup "spans" with
    | some (.arr spanList) =>
      let merged := mergeSpansArr spanList baseSeq parentSeq status adFields now
      (match fs.lookup "data" with
       | some tdata =>
         let mtd := mergeTraceData t.traceAdditionalData adFields tdata
         if mtd.2 then
           { t with spans := t.spans ++ merged
                      ++ [create_fallback_span childTrace baseSeq parentSeq status adFields now],
                    traceAdditionalData := mtd.1 }
         else
           { t with spans := t.spans ++ merged, traceAdditionalData := mtd.1 }
       | none => { t with spans := t.spans ++ merged })
    | _ =>
      { t with spans := t.spans
          ++ [create_fallback_span childTrace baseSeq parentSeq status adFields now] }
  | .arr xs =>
      { t with spans := t.spans ++ mergeSpansArr xs baseSeq parentSeq status adFields now }
  | _ =>
      { t with spans := t.spans
          ++ [create_fallback_span childTrace baseSeq parentSeq status adFields now] }

/-- One span in the output format of `get_trace` (all keys present). -/
def encodeSpan (s : Span) : Json :=
  .obj (jobj
    [("seq", .str s.seq),
     ("parentSeq", match s.parentSeq with | none => .null | some p => .str p),
     ("startTime", .num s.startTime),
     ("duration", match s.dur with | none => .null | some d => .num d),
     ("status", .str s.status),
     ("error", match s.error with | none => .null | some e => .str e),
     ("data", s.data.getD .null),
     ("isValid", .bool s.isValid)])

/-- JSON encoding of a list of spans. -/
def encodeSpans : List Span → JsonArr
  | [] => .nil
  | s :: tl => .cons (encodeSpan s) (encodeSpans tl)

/-- `Tracer.get_trace`: ends every still-running span using
`last_span_success`, stamps the end time, and returns the snapshot
together with the mutated tracer state. -/
def get_trace (t : TracerState) (lastSpanSuccess : Bool) (now : Int) :
    TracerState × Json :=
  let spans' := t.spans.map (fun s =>
    if s.status = "running" then end_previous_span s (!lastSpanSuccess) now else s)
  let endT := t.endTime.getD now
  let t' := { t with spans := spans', endTime := some endT }
  (t', .obj (jobj
    [("traceId", .str t.traceId),
     ("startTime", .str (toString t.startTime)),
     ("endTime", .str (toString endT)),
     ("data", t.traceAdditionalData.getD .null),
     ("spans", .arr (encodeSpans spans')),
     ("isValid", .bool true)]))

/-! ## Argument parsing (app/helpers/uv_handler.py)

The token-scanning loop of `parse_mcp_server_params` and
`resolve_entry_point`.  The package-installation and metadata-retrieval
side effects (uv subprocesses, `importlib.metadata`) are not modelled:
the entry-point dictionary they produce is a parameter. -/

/-- The parse state accumulated by the argument loop. -/
structure ParsedArgs where
  packageName : Option String
  entryPoint : Option String
  sourcePath : Option String
  withDeps : List String
  indexUrl : Option String
  extraIndexUrls : List String
  deriving DecidableEq

/-- Initial parse state. -/
def emptyParsedArgs : ParsedArgs := ⟨none, none, none, [], none, []⟩

/-- Python `s.split(sep, 1)`: split at the first occurrence. -/
def splitOnce (s sep : String) : Option (String × String) :=
  match pySplit s sep with
  | [] => none
  | [_] => none
  | a :: rest => some (a, joinStr sep rest)

/-- Python `s.rsplit(sep, 1)`: split at the last occurrence. -/
def rsplitOnce (s sep : String) : Option (String × String) :=
  match (pySplit s sep).reverse with
  | [] => none
  | [_] => none
  | b :: rest => some (joinStr sep rest.reverse, b)

/-- The `while i < len(args)` loop of `parse_mcp_server_params`:
`--from`, `--with`, `--index-url`, `--extra-index-url` consume a value;
any other `--flag` consumes a following non-flag value if present; the
first bare token is the package spec, split on the first `:` into
name and entry point; later bare tokens are ignored. -/
def parseArgsLoop : List String → ParsedArgs → ParsedArgs
  | [], st => st
  | [a], st =>
    -- last token: the option branches have no following value, so every
    -- `--`-prefixed token just ends the loop
    if pyStartsWith a "--" then st
    else if st.packageName.isNone then
      match splitOnce a ":" with
      | some (nm, ep) => { st with packageName := some nm, entryPoint := some ep }
      | none => { st with packageName := some a }
    else st
  | a :: v :: rest2, st =>
    if a = "--from" then
      parseArgsLoop rest2 { st with sourcePath := some v }
    else if a = "--with" then
      parseArgsLoop rest2 { st with withDeps := st.withDeps ++ pySplit v "," }
    else if a = "--index-url" then
      parseArgsLoop rest2 { st with indexUrl := some v }
    else if a = "--extra-index-url" then
      parseArgsLoop rest2 { st with extraIndexUrls := st.extraIndexUrls ++ [v] }
    else if pyStartsWith a "--" then
      if pyStartsWith v "--" then parseArgsLoop (v :: rest2) st
      else parseArgsLoop rest2 st
    else if st.packageName.isNone then
      match splitOnce a ":" with
      | some (nm, ep) =>
          parseArgsLoop (v :: rest2) { st with packageName := some nm, entryPoint := some ep }
      | none => parseArgsLoop (v :: rest2) { st with packageName := some a }
    else parseArgsLoop (v :: rest2) st

/-- `resolve_entry_point` (uv_handler.py).  `entryPoints` is the
`entry_points` dict obtained from `uv pip inspect`; `inspectionData` is
unused by the source body and kept for signature fidelity. -/
def resolve_entry_point (packageName : String) (requestedEntry : Option String)
    (entryPoints : Json) (inspectionData : Json) : String × String :=
  let _ := inspectionData
  let defaultModule := pyReplace packageName "-" "_"
  match requestedEntry with
  | some e =>
    if e ≠ "" then
      if (pySplit e ".").length > 1 ∧ (pySplit e ":").length > 1 then
        match rsplitOnce e ":" with
        | some (m, f) => (m, f)
        | none => (defaultModule, "main")
      else if (pySplit e ":").length > 1 then
        match splitOnce e ":" with
        | some (m, f) => (if m = "" then defaultModule else m, f)
        | none => (defaultModule, "main")
      else (defaultModule, e)
    else resolveFromScripts packageName defaultModule entryPoints
  | none => resolveFromScripts packageName defaultModule entryPoints
where
  /-- cases 2–4: console scripts, then the fixed guess list whose first
  entry `"{default_module}:main"` is returned unverified. -/
  resolveFromScripts (packageName defaultModule : String) (entryPoints : Json) :
      String × String :=
    let consoleScripts : JsonObj := match entryPoints.get "console_scripts" with
      | some (.obj gs) => gs
      | _ => .nil
    match consoleScripts.lookup packageName with
    | some (.str target) =>
      if (pySplit target ":").length > 1 then
        match rsplitOnce target ":" with
        | some (m, f) => (m, f)
        | none => firstScript consoleScripts defaultModule
      else firstScript consoleScripts defaultModule
    | _ => firstScript consoleScripts defaultModule
  /-- the `for script_name, entry_target in console_scripts.items()`
  fallback, then the guess list. -/
  firstScript : JsonObj → String → String × String
    | .nil, defaultModule => (defaultModule, "main")
    | .cons _ (.str target) tl, defaultModule =>
      if (pySplit target ":").length > 1 then
        match rsplitOnce target ":" with
        | some (m, f) => (m, f)
        | none => firstScript tl defaultModule
      else firstScript tl defaultModule
    | .cons _ _ tl, defaultModule => firstScript tl defaultModule

/-- The result dict of `parse_mcp_server_params` (the fields the
dispatcher reads, plus the parse products). -/
structure UvResult where
  packageName : String
  modulePath : String
  functionName : String
  entryPoint : Option String
  sourcePath : Option String
  withDeps : List String
  deriving DecidableEq

/-- `parse_mcp_server_params` with the installation and metadata
side effects abstracted: `entryPoints` stands for the `entry_points`
dict produced by `uv pip inspect` and `inspectionData` for the package
metadata.  A missing package spec raises
`ValueError("No package name found in arguments")`. -/
def parse_mcp_server_params (args : List String) (entryPoints : Json)
    (inspectionData : Json) : Except PyExc UvResult :=
  let st := parseArgsLoop args emptyParsedArgs
  match st.packageName with
  | none => .error (.valueExc "No package name found in arguments")
  | some pkg =>
    let (m, f) := resolve_entry_point pkg st.entryPoint entryPoints inspectionData
    .ok ⟨pkg, m, f, st.entryPoint, st.sourcePath, st.withDeps⟩

/-! ## Worker bridge (app/helpers/mcp_caller.py)

`SimpleThreadedMcpServer` is the WorkerHandle: the worker thread on the
other end of the pipes is abstracted as a script of wire events, one
consumed per `send_request` call. -/

/-- One `send_request` outcome as driven by the worker: a JSON reply
line, a malformed line, a `select` timeout, or end-of-stream. -/
inductive WireReply where
  | line (j : Json)
  | badLine
  | timeout
  | eof
  deriving DecidableEq

/-- The state of one `SimpleThreadedMcpServer`. -/
structure ServerState where
  script : List WireReply
  isRunning : Bool
  deriving DecidableEq

/-- `SimpleThreadedMcpServer.stop`. -/
def stopServer (s : ServerState) : ServerState := { s with isRunning := false }

/-- `SimpleThreadedMcpServer.send_request`: requires a running server;
a timeout raises the builtin
`TimeoutError(f"Request timed out after {timeout} seconds")`; an empty
read raises `RuntimeError("No response from MCP server")`; a malformed
line raises `json.JSONDecodeError` (a `ValueError`).  The written
request does not influence the scripted reply. -/
def send_request (s : ServerState) (req : Json) (timeoutStr : String) :
    Except PyExc Json × ServerState :=
  let _ := req
  if ¬s.isRunning then
    (.error (.runtimeExc "Server not running"), s)
  else
    match s.script with
    | [] => (.error (.runtimeExc "No response from MCP server"), s)
    | r :: rest =>
      let s' := { s with script := rest }
      match r with
      | .timeout =>
          (.error (.timeoutExc ("Request timed out after " ++ timeoutStr ++ " seconds")), s')
      | .eof => (.error (.runtimeExc "No response from MCP server"), s')
      | .badLine => (.error (.valueExc "Expecting value: line 1 column 1 (char 0)"), s')
      | .line j => (.ok j, s')

/-- `McpCallerConfiguration` (schema.py) as the dispatcher builds it. -/
structure McpCallerConfig where
  jsonrpc : String
  protocolVersion : String
  type : String
  args : Option (List String)
  modulePath : String
  packageName : String
  functionName : String
  deriving DecidableEq

/-- The mutable state of one `McpCaller`. -/
structure McpCallerState where
  config : McpCallerConfig
  requestMessageId : Int
  isConnected : Bool
  serverInfo : Option Json
  server : Option ServerState
  deriving DecidableEq

/-- `McpCaller.__init__`. -/
def mkMcpCaller (cfg : McpCallerConfig) : McpCallerState :=
  ⟨cfg, 1, false, none, none⟩

mutual

/-- `_convert_to_dict` (mcp_caller.py): primitives pass through, list
items are converted, dict entries whose converted value is `None` are
dropped. -/
def convert_to_dict : Json → Json
  | .null => .null
  | .bool b => .bool b
  | .num n => .num n
  | .str s => .str s
  | .arr xs => .arr (convArr xs)
  | .obj fs => .obj (convObj fs)

/-- `_convert_to_dict` over a list (converted `None`s are kept). -/
def convArr : JsonArr → JsonArr
  | .nil => .nil
  | .cons x tl => .cons (convert_to_dict x) (convArr tl)

/-- `_convert_to_dict` over a dict (converted `None`s are dropped). -/
def convObj : JsonObj → JsonObj
  | .nil => .nil
  | .cons k v tl =>
    match convert_to_dict v with
    | .null => convObj tl
    | c => .cons k c (convObj tl)

end

/-- Python `"key" in x` for the reply values `json.loads` can produce:
key membership for dicts, substring for strings, element membership for
lists, `TypeError` otherwise. -/
def pyIn (needle : String) : Json → Except PyExc Bool
  | .obj fs => .ok (fs.hasKey needle)
  | .str s => .ok ((pySplit s needle).length > 1)
  | .arr xs => .ok (arrHasStr xs needle)
  | _ => .error (.typeExc "argument is not iterable")
where
  /-- `needle in list` membership. -/
  arrHasStr : JsonArr → String → Bool
    | .nil, _ => false
    | .cons (.str s) tl, needle => s = needle || arrHasStr tl needle
    | .cons _ tl, needle => arrHasStr tl needle

/-- The `initialize` request `connect` sends. -/
def initRequest (cfg : McpCallerConfig) (msgId : Int) : Json :=
  .obj (jobj
    [("jsonrpc", .str cfg.jsonrpc),
     ("id", .num msgId),
     ("method", .str "initialize"),
     ("params", .obj (jobj
       [("protocolVersion", .str cfg.protocolVersion),
        ("capabilities", .obj .nil),
        ("clientInfo", .obj (jobj
          [("name", .str "mcp-outlet-python"),
           ("version", .str "1.0.0")]))]))])

/-- The `notifications/initialized` notification `connect` fires. -/
def initializedNotification (cfg : McpCallerConfig) : Json :=
  .obj (jobj
    [("jsonrpc", .str cfg.jsonrpc),
     ("method", .str "notifications/initialized"),
     ("params", .obj .nil)])

/-- The `try` body of `McpCaller.connect`: start a fresh server, send
`initialize` (30 s bound), reject replies carrying `error`, cache the
`result` (default `{}`), fire the best-effort `initialized`
notification with its failures swallowed.  Returns the handshake
result, the server state and the advanced message id. -/
def connectTry (cfg : McpCallerConfig) (msgId : Int) (script : List WireReply) :
    Except PyExc (Json × ServerState × Int) := do
  let srv0 : ServerState := ⟨script, true⟩
  let msgId1 := msgId + 1
  let (r1, srv1) := send_request srv0 (initRequest cfg msgId) "30.0"
  let resp ← r1
  let hasErr ← pyIn "error" resp
  if hasErr then
    match resp with
    | .obj fs =>
      match fs.lookup "error" with
      | some (.obj efs) =>
        match efs.lookup "message" with
        | some mv =>
            throw (.custom ⟨INTERNAL_ERROR, "Initialize failed: " ++ pyStr mv, none⟩)
        | none => throw (.keyExc (pyQuote ++ "message" ++ pyQuote))
      | _ => throw (.typeExc "value is not subscriptable")
    | _ => throw (.typeExc "indices must be integers")
  else
    match resp with
    | .obj fs =>
      let info := (fs.lookup "result").getD (.obj .nil)
      let (_, srv2) := send_request srv1 (initializedNotification cfg) "1e-05"
      pure (info, srv2, msgId1)
    | _ => throw (.attributeExc "object has no attribute get")

/-- `McpCaller.connect`: returns the cached handshake result when
already connected with a truthy cache; otherwise runs `connectTry`,
wrapping any failure through `format_error` after stopping the fresh
server.  The third component records whether a new worker was
launched. -/
def connect (st : McpCallerState) (script : List WireReply) :
    Except PyExc Json × McpCallerState × Bool :=
  if st.isConnected ∧ truthyOpt st.serverInfo then
    (.ok (st.serverInfo.getD .null), st, false)
  else
    match connectTry st.config st.requestMessageId script with
    | .ok (info, srv2, msgId1) =>
        (.ok info,
         { st with requestMessageId := msgId1, isConnected := true,
                   serverInfo := some info, server := some srv2 }, true)
    | .error e =>
        (.error (.custom (format_error (.exc e))),
         { st with requestMessageId := st.requestMessageId + 1, server := none }, true)

/-- `McpCaller.close`: stop and drop the server, reset the connection
state.  The second component is the stopped worker handle (for stating
that no running worker survives a close). -/
def McpCallerState.close (st : McpCallerState) : McpCallerState × Option ServerState :=
  match st.server with
  | some srv =>
      ({ st with server := none, isConnected := false, serverInfo := none },
       some (stopServer srv))
  | none => ({ st with isConnected := false, serverInfo := none }, none)

/-- `input_request["id"] = id`: append the missing id key. -/
def setIdKey (req : Json) (msgId : Int) : Json :=
  match req with
  | .obj fs => .obj (fs.push "id" (.num msgId))
  | j => j

/-- `McpCaller.execute_mcp_call`: requires a connected bridge
(`ConnectionClosed` otherwise); `initialize` short-circuits to the
cached handshake result, or fails `InvalidRequest` when the cache is
empty; otherwise the request (id assigned if missing) is forwarded with
a 30-second bound, a reply carrying `error` raises `InternalError` with
that payload as data, and the normalized `result` is returned.  The
tracer receives the empty child merge the source performs on both the
success and the error path. -/
def execute_mcp_call (st : McpCallerState) (t : TracerState) (req : Json)
    (now : Int) : Except PyExc Json × McpCallerState × TracerState :=
  if ¬st.isConnected ∨ st.server.isNone then
    (.error (.custom ⟨CONNECTION_CLOSED, "Not connected", none⟩), st, t)
  else if req.get "method" = some (.str "initialize") then
    if truthyOpt st.serverInfo then
      (.ok (convert_to_dict (st.serverInfo.getD .null)), st, t)
    else
      (.error (.custom ⟨INVALID_REQUEST, "Please connect first", none⟩), st, t)
  else
    let srv := st.server.getD ⟨[], false⟩
    let (req', msgId') :=
      if req.hasKey "id" then (req, st.requestMessageId)
      else (setIdKey req st.requestMessageId, st.requestMessageId + 1)
    let (r, srv') := send_request srv req' "30.0"
    let st' := { st with server := some srv', requestMessageId := msgId' }
    let errMerge := fun (t : TracerState) =>
      merge_child_trace t "mcpCall.server" "mcpCall" false (.arr .nil) (some (.obj .nil)) now
    match r with
    | .error e => (.error e, st', errMerge t)
    | .ok resp =>
      match pyIn "error" resp with
      | .error e => (.error e, st', errMerge t)
      | .ok true =>
        (match resp with
         | .obj fs =>
           (match fs.lookup "error" with
            | some (.obj efs) =>
              let msg := match efs.lookup "message" with
                | some (.str m) => m
                | some v => pyStr v
                | none => "MCP server error"
              (.error (.custom ⟨INTERNAL_ERROR, msg, some (.obj efs)⟩), st', errMerge t)
            | some _ => (.error (.attributeExc "object has no attribute get"), st', errMerge t)
            | none => (.error (.keyExc (pyQuote ++ "error" ++ pyQuote)), st', errMerge t))
         | _ => (.error (.typeExc "indices must be integers"), st', errMerge t))
      | .ok false =>
        match resp with
        | .obj fs =>
          let t' := merge_child_trace t "executeMcpCall" "executeMcpCall" true
            (.arr .nil) (some (.obj .nil)) now
          (.ok (convert_to_dict ((fs.lookup "result").getD .null)), st', t')
        | _ => (.error (.attributeExc "object has no attribute get"), st', errMerge t)

/-! ## Dispatcher (app/handlers/rpc.py)

`generate_jsonrpc_response`, the method table and `rpc_handler`.  The
admission lock serializes executions process-wide; a single execution
is modelled, so the lock is not part of the state.  `uuid.uuid4()` in
`get_trace_id` is abstracted as the fixed token `"uuid4"`; the pydantic
`ValidationError` text placed under `data.reason` is abstracted as
`"validation error"` (no claim reads either). -/

/-- `get_trace_id(handler_input.data, "id")` (handlers/helpers.py). -/
def get_trace_id (data : Json) : String :=
  match data with
  | .obj fs =>
    match fs.lookup "id" with
    | some v => if v = .null then "uuid4" else pyStr v
    | none => "uuid4"
  | _ => "uuid4"

/-- The tagged values of `handlers_map`: a callable (one per local
method), `True` (forwarded) or `False` (rejected). -/
inductive HandlerKind where
  | localPing
  | localSetLevel
  | localInitialized
  | forwarded
  | rejected
  deriving DecidableEq

/-- `handlers_map` in source order. -/
def handlers_map : List (String × HandlerKind) :=
  [("ping", .localPing),
   ("logging/setLevel", .localSetLevel),
   ("notifications/initialized", .localInitialized),
   ("initialize", .forwarded),
   ("prompts/get", .forwarded),
   ("prompts/list", .forwarded),
   ("resources/list", .forwarded),
   ("resources/templates/list", .forwarded),
   ("resources/read", .forwarded),
   ("tools/call", .forwarded),
   ("tools/list", .forwarded),
   ("completion/complete", .forwarded),
   ("notifications/roots/list_changed", .rejected),
   ("resources/unsubscribe", .rejected),
   ("resources/subscribe", .rejected),
   ("sampling/createMessage", .rejected),
   ("roots/list", .rejected)]

/-- `[key for key, value in handlers_map.items() if value is not False]`. -/
def supported_methods : List String :=
  (handlers_map.filter (fun kv => kv.2 ≠ .rejected)).map (·.1)

/-- The `MethodNotFound` message enumerating the supported methods. -/
def supportedMethodsMessage : String :=
  "Rpc supporting only " ++ joinStr ", " supported_methods ++ " methods"

/-- rpc.py lines 161–181: require truthy `params`/`params._meta` and a
validating `CustomRequestMeta`, else `InvalidRequest`; a truthy
non-dict `params` raises `AttributeError` (not caught by the inner
`except ValidationError`), a truthy non-dict `_meta` raises
`TypeError`. -/
def validateMetaStage (data : Json) : Except PyExc ServerConfig :=
  let invalidReq := fun (reason : String) =>
    PyExc.custom ⟨INVALID_REQUEST,
      "Request _meta must be including correct server configuration",
      some (.obj (jobj [("reason", .str reason)]))⟩
  if ¬data.truthy then .error (invalidReq "Missing _meta in params")
  else
    match data with
    | .obj fs =>
      match fs.lookup "params" with
      | some p =>
        if ¬p.truthy then .error (invalidReq "Missing _meta in params")
        else
          match p with
          | .obj pfs =>
            match pfs.lookup "_meta" with
            | some m =>
              if ¬m.truthy then .error (invalidReq "Missing _meta in params")
              else
                match m with
                | .obj mfs =>
                  match validateRequestMeta mfs with
                  | some cfg => .ok cfg
                  | none => .error (invalidReq "validation error")
                | _ => .error (.typeExc "argument after ** must be a mapping")
            | none => .error (invalidReq "Missing _meta in params")
          | _ => .error (.attributeExc "object has no attribute get")
      | none => .error (invalidReq "Missing _meta in params")
    | _ => .error (.attributeExc "object has no attribute get")

/-- `request_data.get("method", "")` followed by `handlers_map.get`:
strings are looked up, other hashable values miss, unhashable values
(`list`/`dict`) raise `TypeError`. -/
def methodLookup (fs : JsonObj) : Except PyExc (Json × Option HandlerKind) :=
  let mv := (fs.lookup "method").getD (.str "")
  match mv with
  | .arr _ => .error (.typeExc "unhashable type")
  | .obj _ => .error (.typeExc "unhashable type")
  | .str s => .ok (mv, handlers_map.lookup s)
  | _ => .ok (mv, none)

/-- The callable handlers of `handlers_map`: `ping` and
`notifications/initialized` return `{"result": None}`;
`logging/setLevel` echoes `params.level` (default `"info"`) under
`result._meta.traceLevel`. -/
def runLocalHandler (k : HandlerKind) (fs : JsonObj) : Except PyExc (Option Json) :=
  match k with
  | .localSetLevel =>
    (match fs.lookup "params" with
     | some (.obj pfs) =>
        .ok (some (.obj (jobj [("_meta", .obj (jobj
          [("traceLevel", (pfs.lookup "level").getD (.str "info"))]))])))
     | some _ => .error (.attributeExc "object has no attribute get")
     | none =>
        .ok (some (.obj (jobj [("_meta", .obj (jobj
          [("traceLevel", .str "info")]))]))))
  | _ => .ok none

/-- The `_meta` parse at the top of `generate_jsonrpc_response`
(lines 44–50): returns the `model_dump` of the server config when the
request's meta validates, `none` when it is absent or invalid
(`ValidationError`/`TypeError`/`KeyError` are caught), and raises
`AttributeError` for a truthy non-dict `data` or `params` (not in the
caught tuple). -/
def parseMetaForResponse (data : Json) : Except PyExc (Option Json) :=
  if ¬data.truthy then .ok none
  else
    match data with
    | .obj fs =>
      match fs.lookup "params" with
      | some p =>
        if ¬p.truthy then .ok none
        else
          match p with
          | .obj pfs =>
            match pfs.lookup "_meta" with
            | some m =>
              if ¬m.truthy then .ok none
              else
                match m with
                | .obj mfs =>
                  match validateRequestMeta mfs with
                  | some cfg => .ok (some (dumpServerConfig cfg))
                  | none => .ok none
                | _ => .ok none
            | none => .ok none
          | _ => .error (.attributeExc "object has no attribute get")
      | none => .ok none
    | _ => .error (.attributeExc "object has no attribute get")

/-- `generate_jsonrpc_response`.  Returns the response (or the escaped
exception) together with the tracer state as mutated by the embedded
`get_trace` call; the `_meta` of an error's `data` and of a success
`result` are merged exactly as the source's dict spreads do. -/
def generate_jsonrpc_response (data : Json) (t : TracerState)
    (result : Option Json) (error : Option Json) (now : Int) :
    Except PyExc Json × TracerState :=
  match parseMetaForResponse data with
  | .error e => (.error e, t)
  | .ok serverDump =>
    let (t', traceJson) := get_trace t error.isNone now
    let cm : JsonObj := match serverDump with
      | some d => jobj [("server", d), ("trace", traceJson)]
      | none => jobj [("trace", traceJson)]
    let jrVal : Json := match data with
      | .obj fs => if data.truthy then (fs.lookup "jsonrpc").getD (.str "2.0") else .str "2.0"
      | _ => .str "2.0"
    let idPart : JsonObj := match data with
      | .obj fs =>
        if data.truthy then
          match fs.lookup "id" with
          | some v => jobj [("id", v)]
          | none => .nil
        else .nil
      | _ => .nil
    match error with
    | some errJson =>
      let efs := match errJson with | .obj fs => fs | _ => .nil
      let dfs := match efs.lookup "data" with | some (.obj dfs) => dfs | _ => .nil
      let innerMeta := match dfs.lookup "_meta" with | some (.obj mfs) => mfs | _ => .nil
      let newData := JsonObj.update dfs (jobj [("_meta", .obj (JsonObj.update cm innerMeta))])
      let errOut := JsonObj.update efs (jobj [("data", .obj newData)])
      (.ok (.obj ((jobj [("jsonrpc", jrVal), ("error", .obj errOut)]).append idPart)), t')
    | none =>
      let base : Except PyExc (JsonObj × JsonObj) := match result with
        | some r =>
          if r.truthy then
            match r with
            | .obj rfs =>
              .ok (rfs, match rfs.lookup "_meta" with | some (.obj ms) => ms | _ => .nil)
            | _ => .error (.typeExc "argument is not a mapping")
          else .ok (.nil, .nil)
        | none => .ok (.nil, .nil)
      match base with
      | .error e => (.error e, t')
      | .ok (rfs, rMeta) =>
        let newRes := JsonObj.update rfs (jobj [("_meta", .obj (JsonObj.update rMeta cm))])
        (.ok (.obj ((jobj [("jsonrpc", jrVal), ("result", .obj newRes)]).append idPart)), t')

/-- The observable outcome of one `rpc_handler` execution:
the response (or escaped exception), the final tracer, whether
`parse_mcp_server_params` was invoked, whether the
unsupported-command `InvalidRequest` was raised, whether a worker was
launched, and the worker handle remaining after the `finally` close. -/
structure RpcRun where
  response : Except PyExc Json
  tracer : TracerState
  resolverCalled : Bool
  commandRejected : Bool
  workerLaunched : Bool
  finalServer : Option ServerState

/-- The `except CustomError` / `except Exception` tail of
`rpc_handler`: format the exception and build the error response
(which can itself raise for malformed request shapes). -/
def rpcFinish (data : Json) (t : TracerState) (e : PyExc) (now : Int)
    (resolverCalled commandRejected workerLaunched : Bool)
    (finalServer : Option ServerState) : RpcRun :=
  let errJson := (format_error (.exc e)).to_response
  let p := generate_jsonrpc_response data t none (some errJson) now
  ⟨p.1, p.2, resolverCalled, commandRejected, workerLaunched, finalServer⟩

/-- Does the worker handle left behind still run? (`False` both when no
worker was created and after a stop.) -/
def serverRunningAtEnd (r : RpcRun) : Bool :=
  match r.finalServer with
  | some s => s.isRunning
  | none => false

/-- `rpc_handler` (rpc.py).  `uvParse` abstracts
`parse_mcp_server_params` (whose installation side effects cannot be
modelled); `script` drives the worker; `timeFn` supplies the
successive clock readings. -/
def rpc_handler (data : Json)
    (uvParse : Option (List String) → Except PyExc UvResult)
    (script : List WireReply) (timeFn : Nat → Int) : RpcRun :=
  let t0 := mkTracer (get_trace_id data) none none (timeFn 0)
  let (t1, _) := record_span t0 "inputValidation" none none (timeFn 1)
  match validateMetaStage data with
  | .error e => rpcFinish data t1 e (timeFn 2) false false false none
  | .ok cfg =>
    let fs := match data with | .obj fs => fs | _ => .nil
    match methodLookup fs with
    | .error e => rpcFinish data t1 e (timeFn 2) false false false none
    | .ok (mv, handler) =>
      match handler with
      | none =>
          rpcFinish data t1 (.custom ⟨METHOD_NOT_FOUND, supportedMethodsMessage, none⟩)
            (timeFn 2) false false false none
      | some .rejected =>
          rpcFinish data t1 (.custom ⟨METHOD_NOT_FOUND, supportedMethodsMessage, none⟩)
            (timeFn 2) false false false none
      | some .forwarded =>
        if ¬fs.hasKey "id" then
          rpcFinish data t1 (.custom ⟨METHOD_NOT_FOUND, "Method not found: " ++ pyStr mv, none⟩)
            (timeFn 2) false false false none
        else
          let (t2, _) := record_span t1 "extractingServerConfig" none none (timeFn 2)
          if pyStartsWith cfg.command "uv" then
            match uvParse cfg.args with
            | .error e => rpcFinish data t2 e (timeFn 3) true false false none
            | .ok uv =>
              let (t3, _) := record_span t2 "connectToServer" none none (timeFn 3)
              let caller0 := mkMcpCaller
                ⟨cfg.jsonrpc, cfg.protocolVersion, cfg.type, cfg.args,
                 uv.modulePath, uv.packageName, uv.functionName⟩
              let (rc, caller1, launched) := connect caller0 script
              match rc with
              | .error e =>
                let (_, finalSrv) := caller1.close
                rpcFinish data t3 e (timeFn 4) true false launched finalSrv
              | .ok _ =>
                let (t4, _) := record_span t3 "executeMcpCall" none
                  (some (.obj (jobj [("method", mv)]))) (timeFn 4)
                let (rx, caller2, t5) := execute_mcp_call caller1 t4 data (timeFn 5)
                let (_, finalSrv) := caller2.close
                match rx with
                | .error e => rpcFinish data t5 e (timeFn 6) true false launched finalSrv
                | .ok res =>
                  match generate_jsonrpc_response data t5 (some res) none (timeFn 6) with
                  | (.ok resp, t6) => ⟨.ok resp, t6, true, false, launched, finalSrv⟩
                  | (.error e2, t6) =>
                      rpcFinish data t6 e2 (timeFn 7) true false launched finalSrv
          else
            rpcFinish data t2
              (.custom ⟨INVALID_REQUEST, "Only uv or uvx command is supported for now", none⟩)
              (timeFn 3) false true false none
      | some k =>
        let (t2, _) := record_span t1 "outletHandler" none none (timeFn 2)
        match runLocalHandler k fs with
        | .error e => rpcFinish data t2 e (timeFn 3) false false false none
        | .ok res =>
          match generate_jsonrpc_response data t2 res none (timeFn 3) with
          | (.ok resp, t3) => ⟨.ok resp, t3, false, false, false, none⟩
          | (.error e2, t3) => rpcFinish data t3 e2 (timeFn 4) false false false none

/-- The `error.code` of a returned envelope, when present. -/
def responseErrorCode (r : Except PyExc Json) : Option Int :=
  match r with
  | .ok j =>
    (match j.get "error" with
     | some ej =>
       (match ej.get "code" with
        | some (.num n) => some n
        | _ => none)
     | none => none)
  | .error _ => none

/-- The `error.message` of a returned envelope, when present. -/
def responseErrorMessage (r : Except PyExc Json) : Option String :=
  match r with
  | .ok j =>
    (match j.get "error" with
     | some ej =>
       (match ej.get "message" with
        | some (.str s) => some s
        | _ => none)
     | none => none)
  | .error _ => none

/-! ## Concrete fixtures used by the claim theorems -/

/-- A resolver outcome standing for a successfully installed `pkg`. -/
def stubUvParse : Option (List String) → Except PyExc UvResult :=
  fun _ => .ok ⟨"pkg", "pkg", "main", none, none, []⟩

/-- A worker's successful `initialize` reply. -/
def initOkReply : Json :=
  .obj (jobj [("jsonrpc", .str "2.0"), ("id", .num 1),
    ("result", .obj (jobj [("protocolVersion", .str "2025-03-26")]))])

/-- A forwarded request with the given method, id, command and args. -/
def mkForwardedRequest (method : String) (idv : Int) (cmd : String)
    (args : List String) : Json :=
  .obj (jobj [("jsonrpc", .str "2.0"), ("id", .num idv), ("method", .str method),
    ("params", .obj (jobj [("_meta", .obj (jobj [("server", .obj (jobj
      [("command", .str cmd), ("args", .arr (jarr (args.map .str)))]))]))]))])

/-- The `ServerConfig` arising from `mkForwardedRequest`'s meta. -/
def mkForwardedConfig (cmd : String) (args : List String) : ServerConfig :=
  ⟨"2025-03-26", "2.0", "stdio", cmd, some args, none, none, none, none⟩

/-! ## Claim theorems -/

/-- C8: parsing `["--from","git+https://x","pkg:mod.sub:fn"]` identifies
package spec `pkg` with explicit entry `mod.sub:fn` (plus the `--from`
source), and — the entry containing both `.` and `:` — entry-point
resolution splits on the last `:` into module `mod.sub` and function
`fn`, for any advertised entry points and metadata. -/
theorem c8_parse_explicit_entry :
    parse_mcp_server_params ["--from", "git+https://x", "pkg:mod.sub:fn"]
        (.obj .nil) (.obj .nil) =
      .ok ⟨"pkg", "mod.sub", "fn", some "mod.sub:fn", some "git+https://x", []⟩ ∧
    ∀ eps insp, resolve_entry_point "pkg" (some "mod.sub:fn") eps insp = ("mod.sub", "fn") :=
  ⟨by decide, fun _ _ => rfl⟩

/-- The C1 failing input: a forwarded `tools/call` (id 1, `uvx pkg`). -/
def c1Request : Json := mkForwardedRequest "tools/call" 1 "uvx" ["pkg"]

/-- The C1 worker script: the handshake succeeds (`initialize` reply,
then the best-effort notification times out), then the forwarded call
never gets a reply within the 30-second bound. -/
def c1Script : List WireReply := [.line initOkReply, .timeout, .timeout]

/-- The C1 dispatcher run. -/
def c1Run : RpcRun := rpc_handler c1Request stubUvParse c1Script (fun k => Int.ofNat k)

/-- C1: at the failing input — a forwarded call whose worker never
replies within the 30-second bound — the dispatcher's envelope carries
code `-32603` (`InternalError`): the `select` timeout raises the
builtin `TimeoutError`, which `format_error` does not map to
`REQUEST_TIMEOUT = -32002` (that constant is declared in error.py but
never raised anywhere).  The worker handle is closed before the
handler returns, as the claim states. -/
theorem c1_timeout_formats_as_internal_error :
    responseErrorCode c1Run.response = some INTERNAL_ERROR ∧
    responseErrorCode c1Run.response ≠ some REQUEST_TIMEOUT ∧
    responseErrorMessage c1Run.response = some "Request timed out after 30.0 seconds" ∧
    c1Run.workerLaunched = true ∧
    serverRunningAtEnd c1Run = false := by
  refine ⟨by decide, by decide, by decide, by decide, by decide⟩

/-- A caller that has not connected yet. -/
def c3FreshCaller : McpCallerState :=
  mkMcpCaller ⟨"2.0", "2025-03-26", "stdio", none, "pkg", "pkg", "main"⟩

/-- C3 counterexample: executing `initialize` on a bridge that is not
yet connected raises `ConnectionClosed` (`-32001`), not the
`InvalidRequest` (`-32600`) the claim states: the `Not connected` guard
precedes the `initialize` short-circuit. -/
theorem c3_counterexample_not_connected :
    c3FreshCaller.isConnected = false ∧
    (execute_mcp_call c3FreshCaller (mkTracer "t" none none 0)
        (.obj (jobj [("method", .str "initialize")])) 0).1 =
      .error (.custom ⟨CONNECTION_CLOSED, "Not connected", none⟩) ∧
    CONNECTION_CLOSED ≠ INVALID_REQUEST := by
  refine ⟨by decide, by decide, by decide⟩

/-- C3 (amended): for an `initialize` request through
`execute_mcp_call`: a bridge that is not connected fails
`ConnectionClosed` (`-32001`); a connected bridge with a truthy cached
handshake result returns its normalized form with bridge and tracer
state untouched (nothing is sent to the worker); a connected bridge
whose cached result is empty/falsy fails `InvalidRequest`. -/
theorem c3_initialize_short_circuit (st : McpCallerState) (t : TracerState)
    (req : Json) (now : Int) (hm : req.get "method" = some (.str "initialize")) :
    (st.isConnected = false →
      (execute_mcp_call st t req now).1 =
        .error (.custom ⟨CONNECTION_CLOSED, "Not connected", none⟩)) ∧
    (st.isConnected = true → st.server.isSome = true → truthyOpt st.serverInfo = true →
      execute_mcp_call st t req now =
        (.ok (convert_to_dict (st.serverInfo.getD .null)), st, t)) ∧
    (st.isConnected = true → st.server.isSome = true → truthyOpt st.serverInfo = false →
      (execute_mcp_call st t req now).1 =
        .error (.custom ⟨INVALID_REQUEST, "Please connect first", none⟩)) := by
  refine ⟨fun h1 => ?_, fun h1 h2 h3 => ?_, fun h1 h2 h3 => ?_⟩
  · simp [execute_mcp_call, h1]
  · cases hs : st.server with
    | none => rw [hs] at h2; simp at h2
    | some srv => simp [execute_mcp_call, h1, hm, h3, hs]
  · cases hs : st.server with
    | none => rw [hs] at h2; simp at h2
    | some srv => simp [execute_mcp_call, h1, hm, h3, hs]

/-- A caller already connected with a truthy cached handshake result. -/
def c3ConnectedCaller : McpCallerState :=
  { c3FreshCaller with
    isConnected := true
    serverInfo := some (.obj (jobj [("p", .str "v")]))
    server := some ⟨[], true⟩ }

/-- C3 witness: the amended theorem applied at a concrete connected
bridge. -/
theorem c3_initialize_short_circuit_witness :
    (.obj (jobj [("method", .str "initialize")]) : Json).get "method" =
        some (.str "initialize") ∧
    c3ConnectedCaller.isConnected = true ∧
    execute_mcp_call c3ConnectedCaller (mkTracer "t" none none 0)
        (.obj (jobj [("method", .str "initialize")])) 0 =
      (.ok (convert_to_dict (c3ConnectedCaller.serverInfo.getD .null)),
       c3ConnectedCaller, mkTracer "t" none none 0) :=
  ⟨by decide, by decide,
   (c3_initialize_short_circuit c3ConnectedCaller (mkTracer "t" none none 0)
      (.obj (jobj [("method", .str "initialize")])) 0 (by decide)).2.1
     (by decide) (by decide) (by decide)⟩

/-- A worker reply whose handshake `result` is the empty object. -/
def emptyInitReply : Json :=
  .obj (jobj [("jsonrpc", .str "2.0"), ("id", .num 1), ("result", .obj .nil)])

/-- A first connect that completes successfully but caches `{}`. -/
def c6First : Except PyExc Json × McpCallerState × Bool :=
  connect c3FreshCaller [.line emptyInitReply, .timeout]

/-- C6 counterexample: `connect()` completes successfully caching the
empty handshake result `{}`; because `{}` is falsy, a second
`connect()` launches a new worker (third component `true`) instead of
returning the cache. -/
theorem c6_counterexample_empty_result_relaunch :
    c6First.1 = .ok (.obj .nil) ∧ c6First.2.2 = true ∧
    (connect c6First.2.1 [.line initOkReply, .timeout]).2.2 = true := by
  refine ⟨by decide, by decide, by decide⟩

/-- C6 (amended): when a `connect()` has completed successfully with a
truthy (non-empty) handshake result, a second `connect()` returns the
same cached result, leaves the bridge state untouched, and launches no
new worker; the `{}`-result case falls outside the cache guard. -/
theorem c6_connect_idempotent_truthy (st st' : McpCallerState)
    (script script2 : List WireReply) (info : Json) (launched : Bool)
    (h : connect st script = (.ok info, st', launched)) (ht : info.truthy = true) :
    connect st' script2 = (.ok info, st', false) := by
  unfold connect at h ⊢
  by_cases hc : st.isConnected ∧ truthyOpt st.serverInfo
  · rw [if_pos hc] at h
    simp only [Prod.mk.injEq, Except.ok.injEq] at h
    obtain ⟨h1, h2, _⟩ := h
    subst h2
    rw [if_pos hc, h1]
  · rw [if_neg hc] at h
    cases hct : connectTry st.config st.requestMessageId script with
    | error e => rw [hct] at h; simp at h
    | ok v =>
      obtain ⟨info2, srv2, msgId1⟩ := v
      rw [hct] at h
      simp only [Prod.mk.injEq, Except.ok.injEq] at h
      obtain ⟨h1, h2, _⟩ := h
      have ht2 : info2.truthy = true := by rw [h1]; exact ht
      rw [← h1, ← h2]
      simp [truthyOpt, ht2]

/-- The truthy handshake result cached by the witness connect. -/
def c6Info : Json := .obj (jobj [("protocolVersion", .str "2025-03-26")])

/-- The bridge state after the witness's first successful connect. -/
def c6ConnectedState : McpCallerState :=
  { c3FreshCaller with
    requestMessageId := 2
    isConnected := true
    serverInfo := some c6Info
    server := some ⟨[], true⟩ }

/-- C6 witness: the amended theorem applied after a concrete successful
connect with a truthy handshake result. -/
theorem c6_connect_idempotent_truthy_witness :
    connect c3FreshCaller [.line initOkReply, .timeout] = (.ok c6Info, c6ConnectedState, true) ∧
    c6Info.truthy = true ∧
    connect c6ConnectedState [] = (.ok c6Info, c6ConnectedState, false) :=
  ⟨by decide, by decide,
   c6_connect_idempotent_truthy c3FreshCaller c6ConnectedState
     [.line initOkReply, .timeout] [] c6Info true (by decide) (by decide)⟩

/-- C7 counterexample: a plain exception (here `ValueError("boom")`)
becomes `InternalError` with its string form as the `message` and an
empty `data` field — not, as the claim states, with the string form
preserved in `data`. -/
theorem c7_counterexample_exception_string_in_message :
    format_error (.exc (.valueExc "boom")) = ⟨INTERNAL_ERROR, "boom", none⟩ ∧
    (format_error (.exc (.valueExc "boom"))).data = none := by
  refine ⟨by decide, by decide⟩

/-- A validating `CustomErrorResponse` pins both required keys. -/
theorem validateCER_hasKeys (fs : JsonObj) (x : Int × String × Option Json)
    (h : validateCustomErrorResponse fs = some x) :
    (fs.hasKey "code" && fs.hasKey "message") = true := by
  unfold validateCustomErrorResponse at h
  unfold JsonObj.hasKey
  split at h
  · next c m hcode hmsg =>
    rw [hcode, hmsg]
    rfl
  · cases h

/-- C7 (amended): `format_error` — a typed `CustomError` passes through
unchanged; a validating `{code, message, data?}` dict is normalized
with every occurrence of `"MCP error {code}: "` removed from the
message (in particular the redundant prefix, as the last conjunct
shows), where validation follows pydantic's lax mode and so coerces a
plain numeric-string `code` to the integer it denotes (penultimate
conjunct); any other exception becomes `InternalError` with its string
form as the `message` (not in `data`); a value that is not a dict
carrying both a `code` and a `message` key becomes `InternalError` /
`"Unknown error"` with the string form under `data.error`. -/
theorem c7_format_error_shapes :
    (∀ e : CustomErr, format_error (.exc (.custom e)) = e) ∧
    (∀ fs c m d, validateCustomErrorResponse fs = some (c, m, d) →
      format_error (.val (.obj fs)) =
        ⟨c, pyReplace m ("MCP error " ++ toString c ++ ": ") "", d⟩) ∧
    (∀ e : PyExc, (∀ ce, e ≠ .custom ce) →
      format_error (.exc e) = ⟨INTERNAL_ERROR, strOfExc e, none⟩) ∧
    (∀ v : Json, (∀ fs, v = .obj fs →
        (fs.hasKey "code" && fs.hasKey "message") = false) →
      format_error (.val v) =
        ⟨INTERNAL_ERROR, "Unknown error",
         some (.obj (jobj [("error", if v = .null then .null else .str (pyStr v))]))⟩) ∧
    format_error (.val (.obj (jobj [("code", .str "5"),
        ("message", .str "x")]))) = ⟨5, "x", none⟩ ∧
    format_error (.val (.obj (jobj [("code", .num (-32000)),
        ("message", .str "MCP error -32000: boom")]))) = ⟨-32000, "boom", none⟩ := by
  refine ⟨fun e => rfl, ?_, ?_, ?_, by decide, by decide⟩
  · intro fs c m d hv
    have hk := validateCER_hasKeys fs (c, m, d) hv
    simp [format_error, hk, hv]
  · intro e hne
    cases e with
    | custom ce => exact absurd rfl (hne ce)
    | timeoutExc m => rfl
    | runtimeExc m => rfl
    | attributeExc m => rfl
    | typeExc m => rfl
    | valueExc m => rfl
    | keyExc m => rfl
  · intro v hv
    cases v with
    | obj fs =>
      have hk : (fs.hasKey "code" && fs.hasKey "message") = false := hv fs rfl
      simp [format_error, format_error.formatUnknown, hk]
    | null => rfl
    | bool b => rfl
    | num n => rfl
    | str s => rfl
    | arr xs => rfl

/-- C7 witness: the amended theorem applied at one concrete input of
each shape. -/
theorem c7_format_error_shapes_witness :
    validateCustomErrorResponse (jobj [("code", .num 5), ("message", .str "x")]) =
        some (5, "x", none) ∧
    format_error (.val (.obj (jobj [("code", .num 5), ("message", .str "x")]))) =
      ⟨5, pyReplace "x" ("MCP error " ++ toString (5 : Int) ++ ": ") "", none⟩ ∧
    format_error (.exc (.runtimeExc "oops")) =
      ⟨INTERNAL_ERROR, strOfExc (.runtimeExc "oops"), none⟩ ∧
    format_error (.val (.num 3)) =
      ⟨INTERNAL_ERROR, "Unknown error",
       some (.obj (jobj [("error",
         if (Json.num 3) = .null then .null else .str (pyStr (.num 3)))]))⟩ :=
  ⟨by decide,
   c7_format_error_shapes.2.1 (jobj [("code", .num 5), ("message", .str "x")]) 5 "x" none
     (by decide),
   c7_format_error_shapes.2.2.1 (.runtimeExc "oops") (fun ce => by simp),
   c7_format_error_shapes.2.2.2.1 (.num 3) (fun fs h => by cases h)⟩

/-- A mapped-string JSON array extracts back to the string list. -/
theorem strList_map_str (xs : List String) : strList (jarr (xs.map .str)) = some xs := by
  induction xs with
  | nil => rfl
  | cons a tl ih => simp [jarr, strList, ih]

/-- `mkForwardedRequest`'s server object validates to
`mkForwardedConfig`. -/
theorem validateServerConfig_mkForwarded (cmd : String) (args : List String) :
    validateServerConfig (JsonObj.cons "command" (.str cmd)
        (JsonObj.cons "args" (.arr (jarr (args.map .str))) .nil)) =
      some (mkForwardedConfig cmd args) := by
  unfold validateServerConfig
  simp [JsonObj.lookup, JsonObj.keys, serverConfigKeys, strList_map_str, mkForwardedConfig]

/-- The dispatcher's meta-validation stage accepts
`mkForwardedRequest`. -/
theorem validateMetaStage_mkForwarded (method : String) (idv : Int) (cmd : String)
    (args : List String) :
    validateMetaStage (mkForwardedRequest method idv cmd args) =
      .ok (mkForwardedConfig cmd args) := by
  unfold validateMetaStage mkForwardedRequest
  simp [jobj, JsonObj.lookup, Json.truthy, validateRequestMeta, validateServerConfig_mkForwarded]

/-- `generate_jsonrpc_response`'s meta parse accepts
`mkForwardedRequest`. -/
theorem parseMetaForResponse_mkForwarded (method : String) (idv : Int) (cmd : String)
    (args : List String) :
    parseMetaForResponse (mkForwardedRequest method idv cmd args) =
      .ok (some (dumpServerConfig (mkForwardedConfig cmd args))) := by
  unfold parseMetaForResponse mkForwardedRequest
  simp [jobj, JsonObj.lookup, Json.truthy, validateRequestMeta, validateServerConfig_mkForwarded]

/-- When the dispatcher's exception tail formats a dataless
`CustomError` for a request whose meta parse does not raise, the
envelope preserves its code and message. -/
theorem rpcFinish_code_msg (data : Json) (t : TracerState) (now : Int)
    (c : Int) (m : String) (md : Option Json)
    (hp : parseMetaForResponse data = .ok md)
    (rc cj wl : Bool) (fsrv : Option ServerState) :
    responseErrorCode (rpcFinish data t (.custom ⟨c, m, none⟩) now rc cj wl fsrv).response = some c ∧
    responseErrorMessage (rpcFinish data t (.custom ⟨c, m, none⟩) now rc cj wl fsrv).response = some m := by
  unfold rpcFinish generate_jsonrpc_response
  rw [hp]
  rcases md with _ | d <;>
    simp [format_error, CustomErr.to_response, get_trace, responseErrorCode, responseErrorMessage,
      Json.get, JsonObj.lookup, JsonObj.update, JsonObj.updKeep, JsonObj.append, JsonObj.dropKeys,
      JsonObj.keys, jobj]

/-- The C2 counterexample request: command `uvicorn`, method
`tools/call`. -/
def c2Request : Json := mkForwardedRequest "tools/call" 1 "uvicorn" ["pkg"]

/-- A successful worker reply for the forwarded call. -/
def execOkReply : Json :=
  .obj (jobj [("jsonrpc", .str "2.0"), ("id", .num 1),
    ("result", .obj (jobj [("ok", .bool true)]))])

/-- The C2 counterexample run. -/
def c2Run : RpcRun :=
  rpc_handler c2Request stubUvParse [.line initOkReply, .timeout, .line execOkReply]
    (fun k => Int.ofNat k)

/-- C2 counterexample: the server command `uvicorn` is neither `uv` nor
`uvx`, yet the dispatcher does not reject it: the check is
`command.startswith("uv")`, so the resolver is called, a worker is
launched and the call completes without the `InvalidRequest`
rejection. -/
theorem c2_counterexample_uvicorn_accepted :
    (validateMetaStage c2Request).map (fun c => c.command) = .ok "uvicorn" ∧
    c2Run.resolverCalled = true ∧
    c2Run.workerLaunched = true ∧
    c2Run.commandRejected = false ∧
    responseErrorCode c2Run.response = none := by
  refine ⟨by decide, by decide, by decide, by decide, by decide⟩

set_option maxHeartbeats 1000000

/-- C2 (amended): a forwarded-method request whose server command does
not start with `"uv"` fails `InvalidRequest` before the resolver runs
or a worker launches; a command starting with `"uv"` — which includes
`uv` and `uvx` but also e.g. `uvicorn` — never triggers that
rejection. -/
theorem c2_command_prefix_gate (method : String) (idv : Int) (cmd : String)
    (args : List String) (uvParse : Option (List String) → Except PyExc UvResult)
    (script : List WireReply) (timeFn : Nat → Int)
    (hm : handlers_map.lookup method = some .forwarded) :
    (pyStartsWith cmd "uv" = false →
      responseErrorCode (rpc_handler (mkForwardedRequest method idv cmd args) uvParse script timeFn).response
          = some INVALID_REQUEST ∧
      responseErrorMessage (rpc_handler (mkForwardedRequest method idv cmd args) uvParse script timeFn).response
          = some "Only uv or uvx command is supported for now" ∧
      (rpc_handler (mkForwardedRequest method idv cmd args) uvParse script timeFn).resolverCalled = false ∧
      (rpc_handler (mkForwardedRequest method idv cmd args) uvParse script timeFn).workerLaunched = false ∧
      (rpc_handler (mkForwardedRequest method idv cmd args) uvParse script timeFn).commandRejected = true) ∧
    (pyStartsWith cmd "uv" = true →
      (rpc_handler (mkForwardedRequest method idv cmd args) uvParse script timeFn).commandRejected = false ∧
      (rpc_handler (mkForwardedRequest method idv cmd args) uvParse script timeFn).resolverCalled = true) ∧
    pyStartsWith "uv" "uv" = true ∧ pyStartsWith "uvx" "uv" = true ∧
    pyStartsWith "uvicorn" "uv" = true := by
  have hv := validateMetaStage_mkForwarded method idv cmd args
  have hp := parseMetaForResponse_mkForwarded method idv cmd args
  refine ⟨fun hcmd => ?_, fun hcmd => ?_, by decide, by decide, by decide⟩
  · unfold rpc_handler
    rw [hv]
    simp [mkForwardedRequest, jobj, methodLookup, JsonObj.lookup, JsonObj.hasKey, hm, hcmd,
      mkForwardedConfig]
    simp [mkForwardedRequest, jobj] at hp
    exact ⟨(rpcFinish_code_msg _ _ _ _ _ _ hp _ _ _ _).1,
           (rpcFinish_code_msg _ _ _ _ _ _ hp _ _ _ _).2, rfl, rfl, rfl⟩
  · unfold rpc_handler
    rw [hv]
    simp [mkForwardedRequest, jobj, methodLookup, JsonObj.lookup, JsonObj.hasKey, hm, hcmd,
      mkForwardedConfig]
    constructor <;> (repeat' split) <;> rfl

/-- C2 witness: the amended theorem applied at a rejected command
(`foo`) and an accepted one (`uvx`). -/
theorem c2_command_prefix_gate_witness :
    handlers_map.lookup "tools/call" = some .forwarded ∧
    pyStartsWith "foo" "uv" = false ∧
    responseErrorCode (rpc_handler (mkForwardedRequest "tools/call" 1 "foo" ["pkg"])
        stubUvParse [] (fun _ => 0)).response = some INVALID_REQUEST ∧
    (rpc_handler (mkForwardedRequest "tools/call" 1 "uvx" ["pkg"])
        stubUvParse [] (fun _ => 0)).commandRejected = false :=
  ⟨by decide, by decide,
   ((c2_command_prefix_gate "tools/call" 1 "foo" ["pkg"] stubUvParse [] (fun _ => 0)
       (by decide)).1 (by decide)).1,
   ((c2_command_prefix_gate "tools/call" 1 "uvx" ["pkg"] stubUvParse [] (fun _ => 0)
       (by decide)).2.1 (by decide)).1⟩

/-- Like `rpcFinish_code_msg`, for a `CustomError` carrying the
`{"reason": ...}` data dict of the meta-validation failure. -/
theorem rpcFinish_code_msg_reason (data : Json) (t : TracerState) (now : Int)
    (c : Int) (m reason : String) (md : Option Json)
    (hp : parseMetaForResponse data = .ok md)
    (rc cj wl : Bool) (fsrv : Option ServerState) :
    responseErrorCode (rpcFinish data t (.custom ⟨c, m,
        some (.obj (JsonObj.cons "reason" (.str reason) .nil))⟩) now rc cj wl fsrv).response = some c ∧
    responseErrorMessage (rpcFinish data t (.custom ⟨c, m,
        some (.obj (JsonObj.cons "reason" (.str reason) .nil))⟩) now rc cj wl fsrv).response = some m := by
  unfold rpcFinish generate_jsonrpc_response
  rw [hp]
  rcases md with _ | d <;>
    simp [format_error, CustomErr.to_response, get_trace, responseErrorCode, responseErrorMessage,
      Json.truthy, Json.get, JsonObj.lookup, JsonObj.update, JsonObj.updKeep, JsonObj.append,
      JsonObj.dropKeys, JsonObj.keys, jobj]

/-- A request whose `params`, `params._meta` or meta validation is
missing/failed (with `params` and `_meta` dicts-or-falsy) makes the
validation stage fail `InvalidRequest`, and the response builder's own
meta parse returns without raising. -/
theorem c4_stage_lemma (data : Json)
    (h : data.truthy = false ∨
      (∃ fs, data = .obj fs ∧
        (truthyOpt (fs.lookup "params") = false ∨
         (∃ pfs, fs.lookup "params" = some (.obj pfs) ∧ (Json.obj pfs).truthy = true ∧
           (truthyOpt (pfs.lookup "_meta") = false ∨
            (∃ mfs, pfs.lookup "_meta" = some (.obj mfs) ∧ (Json.obj mfs).truthy = true ∧
              validateRequestMeta mfs = none)))))) :
    (∃ reason, validateMetaStage data = .error (.custom ⟨INVALID_REQUEST,
      "Request _meta must be including correct server configuration",
      some (.obj (JsonObj.cons "reason" (.str reason) .nil))⟩)) ∧
    parseMetaForResponse data = .ok none := by
  rcases h with hAf | ⟨fs, rfl, hrest⟩
  · constructor
    · exact ⟨"Missing _meta in params", by unfold validateMetaStage; simp [hAf, jobj]⟩
    · unfold parseMetaForResponse; simp [hAf]
  · by_cases hft : (Json.obj fs).truthy = true
    · rcases hrest with hpf | ⟨pfs, hpl, hpt, hrest2⟩
      · cases hpv : fs.lookup "params" with
        | none =>
          constructor
          · exact ⟨"Missing _meta in params",
              by unfold validateMetaStage; simp [hft, hpv, jobj]⟩
          · unfold parseMetaForResponse; simp [hft, hpv]
        | some p =>
          rw [hpv] at hpf
          simp [truthyOpt] at hpf
          constructor
          · exact ⟨"Missing _meta in params",
              by unfold validateMetaStage; simp [hft, hpv, hpf, jobj]⟩
          · unfold parseMetaForResponse; simp [hft, hpv, hpf]
      · rcases hrest2 with hmf | ⟨mfs, hml, hmt, hval⟩
        · cases hmv : pfs.lookup "_meta" with
          | none =>
            constructor
            · exact ⟨"Missing _meta in params",
                by unfold validateMetaStage; simp [hft, hpl, hpt, hmv, jobj]⟩
            · unfold parseMetaForResponse; simp [hft, hpl, hpt, hmv]
          | some mv =>
            rw [hmv] at hmf
            simp [truthyOpt] at hmf
            constructor
            · exact ⟨"Missing _meta in params",
                by unfold validateMetaStage; simp [hft, hpl, hpt, hmv, hmf, jobj]⟩
            · unfold parseMetaForResponse; simp [hft, hpl, hpt, hmv, hmf]
        · constructor
          · exact ⟨"validation error",
              by unfold validateMetaStage; simp [hft, hpl, hpt, hml, hmt, hval, jobj]⟩
          · unfold parseMetaForResponse; simp [hft, hpl, hpt, hml, hmt, hval]
    · simp at hft
      constructor
      · exact ⟨"Missing _meta in params", by unfold validateMetaStage; simp [hft, jobj]⟩
      · unfold parseMetaForResponse; simp [hft]

/-- The C4 counterexample request: `params._meta` present but a string. -/
def c4Request : Json :=
  .obj (jobj [("jsonrpc", .str "2.0"), ("id", .num 7), ("method", .str "tools/call"),
    ("params", .obj (jobj [("_meta", .str "x")]))])

/-- The C4 counterexample run. -/
def c4Run : RpcRun := rpc_handler c4Request stubUvParse [] (fun k => Int.ofNat k)

/-- C4 counterexample: a request whose `params._meta` is present but
not a dict — surely a `_meta` that "fails validation" — yields
`InternalError` (`-32603`, from the uncaught `TypeError` of
`CustomRequestMeta(**meta)`), not the claimed `InvalidRequest`
(`-32600`); no worker is launched. -/
theorem c4_counterexample_nondict_meta :
    responseErrorCode c4Run.response = some INTERNAL_ERROR ∧
    responseErrorCode c4Run.response ≠ some INVALID_REQUEST ∧
    c4Run.workerLaunched = false := by
  refine ⟨by decide, by decide, by decide⟩

/-- C4 (amended): for every inbound request in which `params`,
`params._meta` or `params._meta.server` is absent or fails validation —
and `params`/`_meta` are dicts (or falsy) when present — the dispatcher
returns an `InvalidRequest` (`-32600`) envelope, and neither the
resolver nor a worker is ever invoked.  (A truthy non-dict `params` or
`_meta` instead surfaces as an uncaught `AttributeError`/`TypeError`
formatted as `InternalError`, still launching nothing.) -/
theorem c4_missing_meta_invalid_request (data : Json)
    (uvParse : Option (List String) → Except PyExc UvResult)
    (script : List WireReply) (timeFn : Nat → Int)
    (h : data.truthy = false ∨
      (∃ fs, data = .obj fs ∧
        (truthyOpt (fs.lookup "params") = false ∨
         (∃ pfs, fs.lookup "params" = some (.obj pfs) ∧ (Json.obj pfs).truthy = true ∧
           (truthyOpt (pfs.lookup "_meta") = false ∨
            (∃ mfs, pfs.lookup "_meta" = some (.obj mfs) ∧ (Json.obj mfs).truthy = true ∧
              validateRequestMeta mfs = none)))))) :
    responseErrorCode (rpc_handler data uvParse script timeFn).response = some INVALID_REQUEST ∧
    responseErrorMessage (rpc_handler data uvParse script timeFn).response =
      some "Request _meta must be including correct server configuration" ∧
    (rpc_handler data uvParse script timeFn).workerLaunched = false ∧
    (rpc_handler data uvParse script timeFn).resolverCalled = false := by
  obtain ⟨⟨reason, hv⟩, hp⟩ := c4_stage_lemma data h
  unfold rpc_handler
  rw [hv]
  exact ⟨(rpcFinish_code_msg_reason _ _ _ _ _ _ _ hp _ _ _ _).1,
         (rpcFinish_code_msg_reason _ _ _ _ _ _ _ hp _ _ _ _).2, rfl, rfl⟩

/-- C4 witness: the amended theorem applied at a request with no
`params` at all. -/
theorem c4_missing_meta_invalid_request_witness :
    responseErrorCode (rpc_handler (.obj (jobj [("method", .str "tools/call")]))
        stubUvParse [] (fun _ => 0)).response = some INVALID_REQUEST ∧
    (rpc_handler (.obj (jobj [("method", .str "tools/call")]))
        stubUvParse [] (fun _ => 0)).workerLaunched = false :=
  ⟨(c4_missing_meta_invalid_request (.obj (jobj [("method", .str "tools/call")]))
      stubUvParse [] (fun _ => 0)
      (.inr ⟨_, rfl, .inl (by decide)⟩)).1,
   (c4_missing_meta_invalid_request (.obj (jobj [("method", .str "tools/call")]))
      stubUvParse [] (fun _ => 0)
      (.inr ⟨_, rfl, .inl (by decide)⟩)).2.2.1⟩

/-- The dispatcher's validation stage accepts a request with a
validating `params._meta`. -/
theorem validateMetaStage_ok (fs pfs mfs : JsonObj) (cfg : ServerConfig)
    (hft : (Json.obj fs).truthy = true)
    (hpl : fs.lookup "params" = some (.obj pfs)) (hpt : (Json.obj pfs).truthy = true)
    (hml : pfs.lookup "_meta" = some (.obj mfs)) (hmt : (Json.obj mfs).truthy = true)
    (hval : validateRequestMeta mfs = some cfg) :
    validateMetaStage (.obj fs) = .ok cfg := by
  unfold validateMetaStage
  simp [hft, hpl, hpt, hml, hmt, hval]

/-- The response builder's meta parse accepts the same requests. -/
theorem parseMetaForResponse_ok (fs pfs mfs : JsonObj) (cfg : ServerConfig)
    (hft : (Json.obj fs).truthy = true)
    (hpl : fs.lookup "params" = some (.obj pfs)) (hpt : (Json.obj pfs).truthy = true)
    (hml : pfs.lookup "_meta" = some (.obj mfs)) (hmt : (Json.obj mfs).truthy = true)
    (hval : validateRequestMeta mfs = some cfg) :
    parseMetaForResponse (.obj fs) = .ok (some (dumpServerConfig cfg)) := by
  unfold parseMetaForResponse
  simp [hft, hpl, hpt, hml, hmt, hval]

set_option maxRecDepth 4000 in
/-- C5 (amended): a request that passes `_meta` validation and whose
method misses the fixed table or is a rejected method gets
`MethodNotFound` (`-32601`) whose message enumerates exactly the twelve
non-rejected method names (three local, nine forwarded), each once,
with no resolver call and no worker; a request with an out-of-table
method but missing/invalid `_meta` yields `InvalidRequest` instead
(see the counterexample). -/
theorem c5_method_not_found_message (fs pfs mfs : JsonObj) (cfg : ServerConfig) (mv : Json)
    (uvParse : Option (List String) → Except PyExc UvResult)
    (script : List WireReply) (timeFn : Nat → Int)
    (hft : (Json.obj fs).truthy = true)
    (hpl : fs.lookup "params" = some (.obj pfs)) (hpt : (Json.obj pfs).truthy = true)
    (hml : pfs.lookup "_meta" = some (.obj mfs)) (hmt : (Json.obj mfs).truthy = true)
    (hval : validateRequestMeta mfs = some cfg)
    (hmethod : methodLookup fs = .ok (mv, none) ∨ methodLookup fs = .ok (mv, some .rejected)) :
    responseErrorCode (rpc_handler (.obj fs) uvParse script timeFn).response =
      some METHOD_NOT_FOUND ∧
    responseErrorMessage (rpc_handler (.obj fs) uvParse script timeFn).response =
      some supportedMethodsMessage ∧
    (rpc_handler (.obj fs) uvParse script timeFn).workerLaunched = false ∧
    (rpc_handler (.obj fs) uvParse script timeFn).resolverCalled = false ∧
    supported_methods =
      ["ping", "logging/setLevel", "notifications/initialized", "initialize",
       "prompts/get", "prompts/list", "resources/list", "resources/templates/list",
       "resources/read", "tools/call", "tools/list", "completion/complete"] ∧
    supported_methods.Nodup := by
  have hv := validateMetaStage_ok fs pfs mfs cfg hft hpl hpt hml hmt hval
  have hp := parseMetaForResponse_ok fs pfs mfs cfg hft hpl hpt hml hmt hval
  have hfin : ∀ hk : Option HandlerKind, methodLookup fs = .ok (mv, hk) →
      (hk = none ∨ hk = some .rejected) →
      responseErrorCode (rpc_handler (.obj fs) uvParse script timeFn).response =
        some METHOD_NOT_FOUND ∧
      responseErrorMessage (rpc_handler (.obj fs) uvParse script timeFn).response =
        some supportedMethodsMessage ∧
      (rpc_handler (.obj fs) uvParse script timeFn).workerLaunched = false ∧
      (rpc_handler (.obj fs) uvParse script timeFn).resolverCalled = false := by
    intro hk hml2 hcase
    unfold rpc_handler
    rw [hv]
    dsimp only
    rw [hml2]
    rcases hcase with rfl | rfl
    · exact ⟨(rpcFinish_code_msg _ _ _ _ _ _ hp _ _ _ _).1,
             (rpcFinish_code_msg _ _ _ _ _ _ hp _ _ _ _).2, rfl, rfl⟩
    · exact ⟨(rpcFinish_code_msg _ _ _ _ _ _ hp _ _ _ _).1,
             (rpcFinish_code_msg _ _ _ _ _ _ hp _ _ _ _).2, rfl, rfl⟩
  rcases hmethod with hm1 | hm1
  · obtain ⟨a, b, c, d⟩ := hfin none hm1 (.inl rfl)
    exact ⟨a, b, c, d, by decide, by decide⟩
  · obtain ⟨a, b, c, d⟩ := hfin (some .rejected) hm1 (.inr rfl)
    exact ⟨a, b, c, d, by decide, by decide⟩

/-- The C5 counterexample request: unknown method, no `params`. -/
def c5Request : Json := .obj (jobj [("method", .str "foo")])

/-- The C5 counterexample run. -/
def c5Run : RpcRun := rpc_handler c5Request stubUvParse [] (fun k => Int.ofNat k)

/-- C5 counterexample: for a request whose method (`foo`) is outside
the fixed table but whose `_meta` is missing, the dispatcher returns
`InvalidRequest` (`-32600`), not the claimed `MethodNotFound`
(`-32601`): meta validation precedes method lookup. -/
theorem c5_counterexample_meta_precedes_method :
    handlers_map.lookup "foo" = none ∧
    responseErrorCode c5Run.response = some INVALID_REQUEST ∧
    responseErrorCode c5Run.response ≠ some METHOD_NOT_FOUND := by
  refine ⟨by decide, by decide, by decide⟩

set_option maxRecDepth 4000 in
/-- C5 witness: the amended theorem applied at a concrete request with
valid meta and the unknown method `foo`. -/
theorem c5_method_not_found_message_witness :
    responseErrorCode (rpc_handler (mkForwardedRequest "foo" 1 "uvx" [])
        stubUvParse [] (fun _ => 0)).response = some METHOD_NOT_FOUND ∧
    responseErrorMessage (rpc_handler (mkForwardedRequest "foo" 1 "uvx" [])
        stubUvParse [] (fun _ => 0)).response = some supportedMethodsMessage ∧
    supportedMethodsMessage =
      "Rpc supporting only ping, logging/setLevel, notifications/initialized, initialize, prompts/get, prompts/list, resources/list, resources/templates/list, resources/read, tools/call, tools/list, completion/complete methods" := by
  have h := c5_method_not_found_message
    (jobj [("jsonrpc", .str "2.0"), ("id", .num 1), ("method", .str "foo"),
      ("params", .obj (jobj [("_meta", .obj (jobj [("server", .obj (jobj
        [("command", .str "uvx"), ("args", .arr (jarr []))]))]))]))])
    (jobj [("_meta", .obj (jobj [("server", .obj (jobj
      [("command", .str "uvx"), ("args", .arr (jarr []))]))]))])
    (jobj [("server", .obj (jobj [("command", .str "uvx"), ("args", .arr (jarr []))]))])
    (mkForwardedConfig "uvx" []) (.str "foo") stubUvParse [] (fun _ => 0)
    (by decide) (by decide) (by decide) (by decide) (by decide) (by decide)
    (.inl (by decide))
  exact ⟨h.1, h.2.1, by decide⟩

/-- `closeLast` touches exactly the last span: every earlier span is
returned unchanged at its position. -/
theorem closeLast_append_last (pre : List Span) (lastSpan : Span) (now : Int) :
    closeLast (pre ++ [lastSpan]) now =
      pre ++ [if lastSpan.status = "running"
              then end_previous_span lastSpan false now else lastSpan] := by
  induction pre with
  | nil => by_cases h : lastSpan.status = "running" <;> simp [closeLast, h]
  | cons s tl ih =>
    cases tl with
    | nil => simp [closeLast] at ih ⊢; exact ih
    | cons s2 tl2 => simp [closeLast] at ih ⊢; exact ih

/-- After `get_trace`, no span is left with status `"running"`. -/
theorem get_trace_no_running (t2 : TracerState) (b : Bool) (now2 : Int) :
    ∀ s ∈ ((get_trace t2 b now2).1).spans, s.status ≠ "running" := by
  intro s hs
  unfold get_trace at hs
  simp only at hs
  obtain ⟨a, _, rfl⟩ := List.mem_map.mp hs
  by_cases h : a.status = "running"
  · simp [h, end_previous_span]
    cases b <;> decide
  · simp [h]

/-- C9: `record_span` closes at most one previously running span —
only the last, and only when it is `"running"`, with status `success`
and duration `now - startTime` — before appending the new running
span; and the snapshot `get_trace` returns (whose `spans` field encodes
exactly the mutated span list) contains no span with status
`"running"`. -/
theorem c9_record_span_get_trace (t : TracerState) (name : String) (p : Option String)
    (d : Option Json) (now : Int) :
    ((record_span t name p d now).1.spans =
       closeLast t.spans now ++
         [⟨name, pyOrStr p t.currentParent, now, none, "running", none, d, true⟩]) ∧
    (t.spans = [] → closeLast t.spans now = []) ∧
    (∀ pre lastSpan, t.spans = pre ++ [lastSpan] →
       (lastSpan.status = "running" →
          closeLast t.spans now = pre ++ [end_previous_span lastSpan false now] ∧
          (end_previous_span lastSpan false now).status = "success" ∧
          (end_previous_span lastSpan false now).dur = some (now - lastSpan.startTime)) ∧
       (lastSpan.status ≠ "running" → closeLast t.spans now = pre ++ [lastSpan])) ∧
    (∀ (t2 : TracerState) (b : Bool) (now2 : Int),
       (get_trace t2 b now2).2.get "spans" =
         some (.arr (encodeSpans ((get_trace t2 b now2).1).spans)) ∧
       ∀ s ∈ ((get_trace t2 b now2).1).spans, s.status ≠ "running") := by
  refine ⟨rfl, fun h => by simp [h, closeLast], fun pre lastSpan hdec => ⟨fun hr => ?_, fun hnr => ?_⟩,
    fun t2 b now2 => ⟨?_, get_trace_no_running t2 b now2⟩⟩
  · rw [hdec, closeLast_append_last, if_pos hr]
    exact ⟨rfl, by simp [end_previous_span], by simp [end_previous_span]⟩
  · rw [hdec, closeLast_append_last, if_neg hnr]
  · unfold get_trace
    simp [Json.get, JsonObj.lookup, jobj]

/-- A concrete running span for the C9 witness. -/
def c9Span : Span := ⟨"a", none, 1, none, "running", none, none, true⟩

/-- C9 witness: the theorem applied at a tracer holding one running
span. -/
theorem c9_record_span_get_trace_witness :
    closeLast [c9Span] 5 = [end_previous_span c9Span false 5] ∧
    (end_previous_span c9Span false 5).status = "success" ∧
    (end_previous_span c9Span false 5).dur = some (5 - 1) :=
  ((c9_record_span_get_trace ⟨[c9Span], "w", 0, none, none, none⟩ "b" none none 5).2.2.1
    [] c9Span rfl).1 rfl

/-- Origin flags: positionally, `true` marks a span appended by
`record_span`, `false` one appended by `merge_child_trace`.
`validMatches spans o` says each span's `isValid` equals its flag. -/
def validMatches (spans : List Span) (o : List Bool) : Prop :=
  List.Forall₂ (fun s b => s.isValid = b) spans o

/-- Reachable tracer states, instrumented with the origin flag of each
span: construction, `record_span`, `merge_child_trace` (one `false`
flag per appended span) and the `get_trace` state mutation. -/
inductive ReachableWith : TracerState → List Bool → Prop where
  | init (traceId : String) (parent : Option String) (ad : Option Json) (now : Int) :
      ReachableWith (mkTracer traceId parent ad now) []
  | record (t : TracerState) (o : List Bool) (name : String) (p : Option String)
      (d : Option Json) (now : Int) : ReachableWith t o →
      ReachableWith (record_span t name p d now).1 (o ++ [true])
  | merge (t : TracerState) (o : List Bool) (baseSeq parentSeq : String)
      (isSuccess : Bool) (child : Json) (ad : Option Json) (now : Int) :
      ReachableWith t o →
      ReachableWith (merge_child_trace t baseSeq parentSeq isSuccess child ad now)
        (o ++ List.replicate
          ((merge_child_trace t baseSeq parentSeq isSuccess child ad now).spans.length
            - t.spans.length) false)
  | snapshot (t : TracerState) (o : List Bool) (b : Bool) (now : Int) :
      ReachableWith t o → ReachableWith (get_trace t b now).1 o

/-- Ending the last running span does not change any `isValid` flag. -/
theorem closeLast_isValid (now : Int) (l : List Span) (o : List Bool)
    (h : validMatches l o) : validMatches (closeLast l now) o := by
  induction h with
  | nil => exact List.Forall₂.nil
  | @cons s b tl ob hsb htl ih =>
    cases tl with
    | nil =>
      cases htl
      by_cases hr : s.status = "running"
      · simp only [closeLast, if_pos hr]
        exact List.Forall₂.cons (by simpa [end_previous_span] using hsb) List.Forall₂.nil
      · simp only [closeLast, if_neg hr]
        exact List.Forall₂.cons hsb List.Forall₂.nil
    | cons s2 tl2 =>
      exact List.Forall₂.cons hsb ih

/-- Every span built by the merge constructor carries
`is_valid=False`. -/
theorem mergeSpanFields_isValid (seqStr : String) (parentVal : Json)
    (startVal : Option Int) (durVal : Option (Option Int)) (statusVal : Option String)
    (errVal : Option (Option String)) (dataVal : Option JsonObj) (s : Span)
    (h : mergeSpanFields seqStr parentVal startVal durVal statusVal errVal dataVal = some s) :
    s.isValid = false := by
  unfold mergeSpanFields at h
  split at h
  · injection h with h3; rw [← h3]
  · cases h

/-- Every span `mergeOneSpan` yields carries `is_valid=False`. -/
theorem mergeOneSpan_isValid (fs : JsonObj) (b p st : String) (ad : JsonObj) (now : Int)
    (s : Span) (h : mergeOneSpan fs b p st ad now = some s) : s.isValid = false :=
  mergeSpanFields_isValid _ _ _ _ _ _ _ s h

/-- Every span `_merge_spans_array` appends carries `is_valid=False`. -/
theorem mergeSpansArr_isValid : ∀ (xs : JsonArr) (b p st : String) (ad : JsonObj) (now : Int),
    ∀ s ∈ mergeSpansArr xs b p st ad now, s.isValid = false
  | .nil, _, _, _, _, _ => by simp [mergeSpansArr]
  | .cons hd tl, b, p, st, ad, now => by
    intro s hs
    cases hd with
    | obj fs =>
      unfold mergeSpansArr at hs
      cases hmo : mergeOneSpan fs b p st ad now with
      | some s0 =>
        rw [hmo] at hs
        simp at hs
        rcases hs with rfl | hs
        · exact mergeOneSpan_isValid fs b p st ad now s hmo
        · exact mergeSpansArr_isValid tl b p st ad now s hs
      | none =>
        rw [hmo] at hs
        simp at hs
        exact mergeSpansArr_isValid tl b p st ad now s hs
    | null => exact mergeSpansArr_isValid tl b p st ad now s hs
    | bool bb => exact mergeSpansArr_isValid tl b p st ad now s hs
    | num n => exact mergeSpansArr_isValid tl b p st ad now s hs
    | str ss => exact mergeSpansArr_isValid tl b p st ad now s hs
    | arr xs2 => exact mergeSpansArr_isValid tl b p st ad now s hs

set_option maxRecDepth 8000 in
/-- `merge_child_trace` only appends spans — merged, fallback or error
alike — and every appended span carries `is_valid=False`. -/
theorem merge_child_trace_append (t : TracerState) (baseSeq parentSeq : String)
    (isSuccess : Bool) (child : Json) (ad : Option Json) (now : Int) :
    ∃ news, (merge_child_trace t baseSeq parentSeq isSuccess child ad now).spans
        = t.spans ++ news ∧ ∀ s ∈ news, s.isValid = false := by
  unfold merge_child_trace
  have hfb : ∀ (ct : Json) (adf : JsonObj) (stv : String),
      (create_fallback_span ct baseSeq parentSeq stv adf now).isValid = false :=
    fun _ _ _ => rfl
  generalize (if isSuccess = true then "success" else "error") = stv
  generalize (match ad with | some (.obj gs) => gs | _ => JsonObj.nil) = adf
  cases child with
  | obj fs =>
    cases hsp : fs.lookup "spans" with
    | some sv =>
      cases sv with
      | arr spanList =>
        cases htd : fs.lookup "data" with
        | some tdata =>
          cases hrv : (mergeTraceData t.traceAdditionalData adf tdata).2 with
          | true =>
            refine ⟨mergeSpansArr spanList baseSeq parentSeq stv adf now ++
                [create_fallback_span (.obj fs) baseSeq parentSeq stv adf now], ?_, ?_⟩
            · simp only [hsp, htd]
              rw [hrv]
              simp only [eq_self_iff_true, if_true]
              rw [List.append_assoc]
            · intro s hs
              rcases List.mem_append.mp hs with hs1 | hs2
              · exact mergeSpansArr_isValid _ _ _ _ _ _ s hs1
              · simp at hs2; rw [hs2]; exact hfb _ _ _
          | false =>
            refine ⟨mergeSpansArr spanList baseSeq parentSeq stv adf now, ?_, ?_⟩
            · simp only [hsp, htd]
              rw [hrv]
              simp only [Bool.false_eq_true, if_false]
            · exact mergeSpansArr_isValid _ _ _ _ _ _
        | none =>
          exact ⟨mergeSpansArr spanList baseSeq parentSeq stv adf now,
            by simp only [hsp, htd], mergeSpansArr_isValid _ _ _ _ _ _⟩
      | null =>
        exact ⟨[create_fallback_span (.obj fs) baseSeq parentSeq stv adf now],
          by simp only [hsp], by intro s hs; simp at hs; rw [hs]; exact hfb _ _ _⟩
      | bool bb =>
        exact ⟨[create_fallback_span (.obj fs) baseSeq parentSeq stv adf now],
          by simp only [hsp], by intro s hs; simp at hs; rw [hs]; exact hfb _ _ _⟩
      | num n =>
        exact ⟨[create_fallback_span (.obj fs) baseSeq parentSeq stv adf now],
          by simp only [hsp], by intro s hs; simp at hs; rw [hs]; exact hfb _ _ _⟩
      | str ss =>
        exact ⟨[create_fallback_span (.obj fs) baseSeq parentSeq stv adf now],
          by simp only [hsp], by intro s hs; simp at hs; rw [hs]; exact hfb _ _ _⟩
      | obj gs =>
        exact ⟨[create_fallback_span (.obj fs) baseSeq parentSeq stv adf now],
          by simp only [hsp], by intro s hs; simp at hs; rw [hs]; exact hfb _ _ _⟩
    | none =>
      exact ⟨[create_fallback_span (.obj fs) baseSeq parentSeq stv adf now],
        by simp only [hsp], by intro s hs; simp at hs; rw [hs]; exact hfb _ _ _⟩
  | arr xs => exact ⟨mergeSpansArr xs baseSeq parentSeq stv adf now, rfl,
      mergeSpansArr_isValid _ _ _ _ _ _⟩
  | null => exact ⟨[create_fallback_span .null baseSeq parentSeq stv adf now], rfl,
      by intro s hs; simp at hs; rw [hs]; exact hfb _ _ _⟩
  | bool bb => exact ⟨[create_fallback_span (.bool bb) baseSeq parentSeq stv adf now], rfl,
      by intro s hs; simp at hs; rw [hs]; exact hfb _ _ _⟩
  | num n => exact ⟨[create_fallback_span (.num n) baseSeq parentSeq stv adf now], rfl,
      by intro s hs; simp at hs; rw [hs]; exact hfb _ _ _⟩
  | str ss => exact ⟨[create_fallback_span (.str ss) baseSeq parentSeq stv adf now], rfl,
      by intro s hs; simp at hs; rw [hs]; exact hfb _ _ _⟩

/-- Mapping an `isValid`-preserving function preserves the
correspondence. -/
theorem validMatches_map (f : Span → Span) (hf : ∀ s, (f s).isValid = s.isValid)
    (l : List Span) (o : List Bool) (h : validMatches l o) :
    validMatches (l.map f) o := by
  induction h with
  | nil => exact List.Forall₂.nil
  | cons hsb _ ih => exact List.Forall₂.cons (by rw [hf]; exact hsb) ih

/-- All-invalid spans match a replicated `false` flag list. -/
theorem validMatches_replicate_false (l : List Span) (h : ∀ s ∈ l, s.isValid = false) :
    validMatches l (List.replicate l.length false) := by
  induction l with
  | nil => exact List.Forall₂.nil
  | cons s tl ih =>
    exact List.Forall₂.cons (h s (by simp)) (ih (fun x hx => h x (by simp [hx])))

/-- C10: in every reachable tracer state the `isValid` flag of each
span equals its origin flag — `true` exactly for the spans
`record_span` created, `false` for every span `merge_child_trace`
absorbed; moreover `record_span`'s new span always has
`isValid = true`, every span `merge_child_trace` appends (merged,
fallback or error) has `isValid = false`, and the error span
constructor is likewise marked invalid. -/
theorem c10_is_valid_origin :
    (∀ t o, ReachableWith t o → validMatches t.spans o) ∧
    (∀ t name p d now, ((record_span t name p d now).2).isValid = true) ∧
    (∀ t baseSeq parentSeq isSuccess child ad now, ∃ news,
        (merge_child_trace t baseSeq parentSeq isSuccess child ad now).spans
          = t.spans ++ news ∧ ∀ s ∈ news, s.isValid = false) ∧
    (∀ ct b p st ad em now, (create_error_span ct b p st ad em now).isValid = false) := by
  refine ⟨?_, fun t name p d now => rfl, merge_child_trace_append,
    fun ct b p st ad em now => rfl⟩
  intro t o h
  induction h with
  | init traceId parent ad now => exact List.Forall₂.nil
  | record t o name p d now _ ih =>
    exact List.rel_append (closeLast_isValid now t.spans o ih)
      (List.Forall₂.cons rfl List.Forall₂.nil)
  | merge t o baseSeq parentSeq isSuccess child ad now _ ih =>
    obtain ⟨news, heq, hinv⟩ := merge_child_trace_append t baseSeq parentSeq isSuccess child ad now
    rw [heq]
    simp only [List.length_append, Nat.add_sub_cancel_left]
    exact List.rel_append ih (validMatches_replicate_false news hinv)
  | snapshot t o b now _ ih =>
    exact validMatches_map _
      (fun s => by by_cases hr : s.status = "running" <;> simp [hr, end_previous_span]) _ _ ih

/-- A child trace with one span dict, for the C10 witness. -/
def c10Child : Json := .arr (jarr [.obj (jobj [("seq", .str "x")])])

/-- One `record_span` then one `merge_child_trace`. -/
def c10State : TracerState :=
  merge_child_trace (record_span (mkTracer "w" none none 0) "a" none none 1).1
    "b" "p" true c10Child none 2

/-- C10 witness: the invariant applied along a concrete reachable
history — the recorded span is flagged valid, the merged one invalid. -/
theorem c10_is_valid_origin_witness :
    validMatches c10State.spans [true, false] :=
  c10_is_valid_origin.1 c10State [true, false]
    (ReachableWith.merge _ _ _ _ _ _ _ _
      (ReachableWith.record _ _ _ _ _ _
        (ReachableWith.init "w" none none 0)))
